import Mathlib

/-!
A shallow embedding of the OpenStates MCP server (Python, `src/app`).

The repository exposes the OpenStates v3 REST API as MCP tool operations.
Every tool handler has the same shape: log an informational line, validate
that an API key is configured, build a query-parameter map from the
caller's optional filter arguments, issue one HTTP GET against the
hardcoded host `https://v3.openstates.org` with a 30-second timeout, and
either return the decoded JSON body unchanged or log and re-raise the
error.

The embedding models each handler as a pure function from
(configuration, arguments, upstream behaviour) to a `RunResult` recording
the log lines emitted, the HTTP requests issued, and the final outcome
(returned JSON or raised Python exception).  Python dict construction is
modelled by an insertion-ordered association list; Python truthiness of
optional strings and lists is modelled explicitly.
-/

/-- Decoded JSON documents, as returned by `response.json()`. -/
inductive Json where
  | null : Json
  | bool (b : Bool) : Json
  | num (n : Int) : Json
  | str (s : String) : Json
  | arr (xs : List Json) : Json
  | obj (fields : List (String × Json)) : Json

/-- A value stored in a query-parameter dict: Python str, int, bool,
list of str, or float (modelled as a rational). -/
inductive PVal where
  | s (v : String) : PVal
  | i (v : Int) : PVal
  | b (v : Bool) : PVal
  | l (v : List String) : PVal
  | f (v : ℚ) : PVal
  deriving DecidableEq, Repr

/-- Severity of a log line (`logger.info` / `ctx.info` versus
`logger.error` / `ctx.error`; both sinks carry the same messages). -/
inductive LogLevel where
  | info : LogLevel
  | error : LogLevel
  deriving DecidableEq, Repr

/-- One emitted log line. -/
structure LogEntry where
  level : LogLevel
  msg : String
  deriving DecidableEq, Repr

/-- Python exceptions that the handlers raise or propagate.
`valueError` is the configuration error raised by `_validate_api_key`;
`valueErrorOfError e` is the distinct object `ValueError(e)` built in
`search_committees`; `httpStatusError` is `httpx.HTTPStatusError` from
`raise_for_status`; `requestError` covers transport-level failures of
the GET (DNS, refused connection, timeout) and JSON-decoding failures;
`typeError` and `attributeError` arise from `len(...)` / `.get(...)`
on an unsuitable decoded body. -/
inductive PyError where
  | valueError (msg : String) : PyError
  | valueErrorOfError (inner : PyError) : PyError
  | httpStatusError (code : Int) (msg : String) : PyError
  | requestError (msg : String) : PyError
  | typeError (msg : String) : PyError
  | attributeError (msg : String) : PyError
  deriving DecidableEq, Repr

/-- Python `str(e)` of an exception, as used in f-string log messages. -/
def PyError.str : PyError → String
  | .valueError m => m
  | .valueErrorOfError inner => inner.str
  | .httpStatusError _ m => m
  | .requestError m => m
  | .typeError m => m
  | .attributeError m => m

/-- True exactly for `httpx.HTTPStatusError`, the class tested by
`_handle_api_error`. -/
def PyError.isHttpStatusError : PyError → Bool
  | .httpStatusError _ _ => true
  | _ => false

/-- One outbound HTTP GET request as issued by `client.get`. -/
structure Request where
  url : String
  params : List (String × PVal)
  headers : List (String × String)
  timeout : ℚ
  deriving DecidableEq, Repr

/-- The environment's behaviour for the single GET a handler may issue:
a 2xx response with a decoded JSON body, a non-2xx status (which
`raise_for_status` turns into `httpx.HTTPStatusError`), or a
transport-level / decoding failure. -/
inductive HttpOutcome where
  | success (body : Json) : HttpOutcome
  | statusError (code : Int) (msg : String) : HttpOutcome
  | requestError (msg : String) : HttpOutcome

/-- The observable result of one handler invocation: the log lines
emitted in order, the HTTP requests issued in order, and the returned
JSON or the raised exception. -/
structure RunResult where
  log : List LogEntry
  requests : List Request
  outcome : Except PyError Json

/-- The configuration record (`src/app/config.py`, class `Config`),
with the source's defaults. -/
structure Config where
  host : String := "0.0.0.0"
  mcp_port : Int := 8795
  openstates_log_level : String := "INFO"
  openstates_debug : Bool := false
  environment : String := "production"
  openstates_base_url : String := "https://v3.openstates.org"
  openstates_api_key : Option String := none
  openstates_timeout : Int := 30
  openstates_connect_timeout : Int := 10
  openstates_read_timeout : Int := 30
  openstates_rate_limit : Int := 50
  openstates_cache_ttl : Int := 300
  openstates_max_retries : Int := 3
  openstates_retry_delay : ℚ := 1
  deriving DecidableEq, Repr

/-- Python truthiness of an `Optional[str]`: `None` and `""` are falsy. -/
def strTruthy : Option String → Bool
  | none => false
  | some s => s ≠ ""

/-- Python truthiness of an `Optional[list[str]]`: `None` and `[]` are
falsy. -/
def listTruthy : Option (List String) → Bool
  | none => false
  | some l => l ≠ []

/-- Python f-string rendering of an `Optional[str]` argument
(`None` prints as "None"). -/
def optRepr : Option String → String
  | none => "None"
  | some s => s

/-- The message of the configuration `ValueError`. -/
def apiKeyErrorMsg : String := "OPENSTATES_API_KEY not found in environment variables"

/-- Embeds `_validate_api_key` (identical in all five tool modules):
raise `ValueError` when `config.openstates_api_key` is falsy, else
return the key. -/
def _validate_api_key (key : Option String) : Except PyError String :=
  match key with
  | none => Except.error (PyError.valueError apiKeyErrorMsg)
  | some s =>
      if s = "" then Except.error (PyError.valueError apiKeyErrorMsg)
      else Except.ok s

/-- Embeds the message formatting of `_handle_api_error` (identical in
all five tool modules): HTTPStatusError renders as "HTTP error: ...",
everything else as "API error: ...". -/
def handleApiErrorMsg (e : PyError) : String :=
  if e.isHttpStatusError then "HTTP error: " ++ e.str
  else "API error: " ++ e.str

/-- A scalar entry added by `params.update({k: v for ... if value})`:
present exactly when the Python value is truthy. -/
def truthyEntry (k : String) (v : Option String) : List (String × PVal) :=
  match v with
  | none => []
  | some s => if s = "" then [] else [(k, PVal.s s)]

/-- A scalar entry added by `params.update({k: v for ... if value is not None})`
(the filter used in `search_events`): present exactly when the Python
value is not `None`. -/
def notNoneEntry (k : String) (v : Option String) : List (String × PVal) :=
  match v with
  | none => []
  | some s => [(k, PVal.s s)]

/-- The repeated-parameter entry built by
`if xs: for item in xs: params.setdefault(k, []).append(item)`:
for a truthy list the key is bound to exactly the input list. -/
def listEntry (k : String) (v : Option (List String)) : List (String × PVal) :=
  match v with
  | none => []
  | some l => if l = [] then [] else [(k, PVal.l l)]

/-- A scalar entry for a required (non-Optional) `str` argument passed
through the same `if value` truthiness filter: kept whenever the string
is non-empty (used for `sort` in `search_bills`). -/
def reqStrEntry (k : String) (s : String) : List (String × PVal) :=
  if s = "" then [] else [(k, PVal.s s)]

/-- Dict lookup on the insertion-ordered association list. -/
def plookup (ps : List (String × PVal)) (k : String) : Option PVal :=
  (ps.find? (fun p => p.1 = k)).map (fun p => p.2)

/-- The keys present in a parameter dict. -/
def pkeys (ps : List (String × PVal)) : List String :=
  ps.map (fun p => p.1)

/-- Python `data.get(k, d)` on a decoded body: `none` models the
`AttributeError` raised when `data` is not a dict. -/
def pyDictGetD (j : Json) (k : String) (d : Json) : Option Json :=
  match j with
  | .obj fields =>
      match fields.find? (fun p => p.1 = k) with
      | some p => some p.2
      | none => some d
  | _ => none

/-- Python `len` on a decoded JSON value: defined for lists, strings and
dicts; `none` models the `TypeError` raised on numbers, booleans and
`None`. -/
def pyLen : Json → Option Nat
  | .arr xs => some xs.length
  | .str s => some s.length
  | .obj fields => some fields.length
  | _ => none

/-- Arguments of `search_bills` (`src/app/tools/bills.py`), with the
source's defaults.  Python's `include` argument is modelled by the
field `incl`, since `include` is a reserved word in Lean. -/
structure SearchBillsArgs where
  jurisdiction : Option String := none
  session : Option String := none
  chamber : Option String := none
  identifier : Option (List String) := none
  classification : Option String := none
  subject : Option (List String) := none
  updated_since : Option String := none
  created_since : Option String := none
  action_since : Option String := none
  sort : String := "updated_desc"
  sponsor : Option String := none
  sponsor_classification : Option String := none
  q : Option String := none
  incl : Option (List String) := none
  page : Int := 1
  per_page : Int := 10
  deriving DecidableEq, Repr

/-- The query-parameter dict built by `search_bills`: pagination first,
then the three `setdefault`-appended list parameters, then the
truthiness-filtered `param_fields` scalars in dict-literal order
(`sort` is a plain `str` defaulting to "updated_desc", so it is kept
whenever non-empty). -/
def searchBills_params (a : SearchBillsArgs) : List (String × PVal) :=
  [("page", PVal.i a.page), ("per_page", PVal.i (min a.per_page 100))]
    ++ listEntry "identifier" a.identifier
    ++ listEntry "subject" a.subject
    ++ listEntry "include" a.incl
    ++ truthyEntry "jurisdiction" a.jurisdiction
    ++ truthyEntry "session" a.session
    ++ truthyEntry "chamber" a.chamber
    ++ truthyEntry "classification" a.classification
    ++ truthyEntry "updated_since" a.updated_since
    ++ truthyEntry "created_since" a.created_since
    ++ truthyEntry "action_since" a.action_since
    ++ reqStrEntry "sort" a.sort
    ++ truthyEntry "sponsor" a.sponsor
    ++ truthyEntry "sponsor_classification" a.sponsor_classification
    ++ truthyEntry "q" a.q

/-- Shared tail of every handler: after the API key has been validated,
issue the single GET and handle the three upstream outcomes exactly as
the `try`/`except Exception` block does.  `okResult` builds the success
branch (it differs between search handlers, which first compute
`len(data.get("results", []))`, and get-by-id handlers, which return the
body directly); failures are logged via `_handle_api_error` and
re-raised unchanged. -/
def gatewayCall (log0 : List LogEntry) (req : Request) (upstream : HttpOutcome)
    (okResult : Json → RunResult) : RunResult :=
  match upstream with
  | .success body => okResult body
  | .statusError code msg =>
      let e := PyError.httpStatusError code msg
      { log := log0 ++ [⟨LogLevel.error, handleApiErrorMsg e⟩],
        requests := [req], outcome := Except.error e }
  | .requestError msg =>
      let e := PyError.requestError msg
      { log := log0 ++ [⟨LogLevel.error, handleApiErrorMsg e⟩],
        requests := [req], outcome := Except.error e }

/-- Shared success branch of the five search handlers: compute
`len(data.get("results", []))` for the "Found n ..." log line; a body
that is not a dict raises `AttributeError`, and a `results` value
without a `len` raises `TypeError`, both caught by the same
`except Exception` block, logged as "API error: ..." and re-raised. -/
def searchSuccess (log0 : List LogEntry) (req : Request)
    (foundMsg : Nat → String) (body : Json) : RunResult :=
  match pyDictGetD body "results" (Json.arr []) with
  | none =>
      let e := PyError.attributeError "'NoneType' object has no attribute 'get'"
      { log := log0 ++ [⟨LogLevel.error, handleApiErrorMsg e⟩],
        requests := [req], outcome := Except.error e }
  | some r =>
      match pyLen r with
      | none =>
          let e := PyError.typeError "object has no len()"
          { log := log0 ++ [⟨LogLevel.error, handleApiErrorMsg e⟩],
            requests := [req], outcome := Except.error e }
      | some n =>
          { log := log0 ++ [⟨LogLevel.info, foundMsg n⟩],
            requests := [req], outcome := Except.ok body }

/-- Embeds `search_bills` (`src/app/tools/bills.py`). -/
def search_bills (cfg : Config) (a : SearchBillsArgs) (upstream : HttpOutcome) :
    RunResult :=
  let j := optRepr a.jurisdiction
  let qq := optRepr a.q
  let log0 : List LogEntry :=
    [⟨LogLevel.info, s!"Searching bills with jurisdiction: {j}, query: {qq}"⟩]
  match _validate_api_key cfg.openstates_api_key with
  | Except.error e =>
      { log := log0 ++ [⟨LogLevel.error, e.str⟩], requests := [],
        outcome := Except.error e }
  | Except.ok api_key =>
      let req : Request :=
        { url := "https://v3.openstates.org/bills",
          params := searchBills_params a,
          headers := [("x-api-key", api_key)], timeout := 30 }
      gatewayCall log0 req upstream (searchSuccess log0 req (fun n => s!"Found {n} bills"))

/-- Shared success branch of the get-by-id handlers: log the success
line and return `response.json()` unchanged. -/
def getSuccess (log0 : List LogEntry) (req : Request) (okMsg : String)
    (body : Json) : RunResult :=
  { log := log0 ++ [⟨LogLevel.info, okMsg⟩], requests := [req],
    outcome := Except.ok body }

/-- Embeds `get_bill_by_id` (`src/app/tools/bills.py`). -/
def get_bill_by_id (cfg : Config) (bill_uuid : String)
    (incl : Option (List String)) (upstream : HttpOutcome) : RunResult :=
  let log0 : List LogEntry :=
    [⟨LogLevel.info, s!"Getting bill by UUID: {bill_uuid}"⟩]
  match _validate_api_key cfg.openstates_api_key with
  | Except.error e =>
      { log := log0 ++ [⟨LogLevel.error, e.str⟩], requests := [],
        outcome := Except.error e }
  | Except.ok api_key =>
      let req : Request :=
        { url := "https://v3.openstates.org/bills/ocd-bill/" ++ bill_uuid,
          params := listEntry "include" incl,
          headers := [("x-api-key", api_key)], timeout := 30 }
      gatewayCall log0 req upstream
        (getSuccess log0 req s!"Successfully retrieved bill {bill_uuid}")

/-- Embeds `get_bill_details` (`src/app/tools/bills.py`). -/
def get_bill_details (cfg : Config) (jurisdiction session bill_id : String)
    (incl : Option (List String)) (upstream : HttpOutcome) : RunResult :=
  let log0 : List LogEntry :=
    [⟨LogLevel.info, s!"Getting bill details: {jurisdiction}/{session}/{bill_id}"⟩]
  match _validate_api_key cfg.openstates_api_key with
  | Except.error e =>
      { log := log0 ++ [⟨LogLevel.error, e.str⟩], requests := [],
        outcome := Except.error e }
  | Except.ok api_key =>
      let req : Request :=
        { url := "https://v3.openstates.org/bills/" ++ jurisdiction ++ "/"
            ++ session ++ "/" ++ bill_id,
          params := listEntry "include" incl,
          headers := [("x-api-key", api_key)], timeout := 30 }
      gatewayCall log0 req upstream
        (getSuccess log0 req
          s!"Successfully retrieved bill {jurisdiction}/{session}/{bill_id}")

/-- Arguments of `search_people` (`src/app/tools/people.py`), with the
source's defaults. -/
structure SearchPeopleArgs where
  jurisdiction : Option String := none
  name : Option String := none
  id : Option (List String) := none
  org_classification : Option String := none
  district : Option String := none
  incl : Option (List String) := none
  page : Int := 1
  per_page : Int := 10
  deriving DecidableEq, Repr

/-- The query-parameter dict built by `search_people`. -/
def searchPeople_params (a : SearchPeopleArgs) : List (String × PVal) :=
  [("page", PVal.i a.page), ("per_page", PVal.i (min a.per_page 100))]
    ++ listEntry "id" a.id
    ++ listEntry "include" a.incl
    ++ truthyEntry "jurisdiction" a.jurisdiction
    ++ truthyEntry "name" a.name
    ++ truthyEntry "org_classification" a.org_classification
    ++ truthyEntry "district" a.district

/-- Embeds `search_people` (`src/app/tools/people.py`). -/
def search_people (cfg : Config) (a : SearchPeopleArgs) (upstream : HttpOutcome) :
    RunResult :=
  let j := optRepr a.jurisdiction
  let n := optRepr a.name
  let log0 : List LogEntry :=
    [⟨LogLevel.info, s!"Searching people with jurisdiction: {j}, name: {n}"⟩]
  match _validate_api_key cfg.openstates_api_key with
  | Except.error e =>
      { log := log0 ++ [⟨LogLevel.error, e.str⟩], requests := [],
        outcome := Except.error e }
  | Except.ok api_key =>
      let req : Request :=
        { url := "https://v3.openstates.org/people",
          params := searchPeople_params a,
          headers := [("x-api-key", api_key)], timeout := 30 }
      gatewayCall log0 req upstream (searchSuccess log0 req (fun n => s!"Found {n} people"))

/-- Embeds `get_legislators_by_location` (`src/app/tools/people.py`).
Latitude and longitude are Python floats, modelled as rationals. -/
def get_legislators_by_location (cfg : Config) (latitude longitude : ℚ)
    (upstream : HttpOutcome) : RunResult :=
  let lat := toString latitude
  let lng := toString longitude
  let log0 : List LogEntry :=
    [⟨LogLevel.info, s!"Getting legislators for location: {lat}, {lng}"⟩]
  match _validate_api_key cfg.openstates_api_key with
  | Except.error e =>
      { log := log0 ++ [⟨LogLevel.error, e.str⟩], requests := [],
        outcome := Except.error e }
  | Except.ok api_key =>
      let req : Request :=
        { url := "https://v3.openstates.org/people.geo",
          params := [("lat", PVal.f latitude), ("lng", PVal.f longitude)],
          headers := [("x-api-key", api_key)], timeout := 30 }
      gatewayCall log0 req upstream
        (getSuccess log0 req "Successfully retrieved legislators for location")

/-- Arguments of `search_committees` (`src/app/tools/committees.py`),
with the source's defaults. -/
structure SearchCommitteesArgs where
  jurisdiction : Option String := none
  classification : Option String := none
  parent : Option String := none
  chamber : Option String := none
  incl : Option (List String) := none
  page : Int := 1
  per_page : Int := 20
  deriving DecidableEq, Repr

/-- The query-parameter dict built by `search_committees`. -/
def searchCommittees_params (a : SearchCommitteesArgs) : List (String × PVal) :=
  [("page", PVal.i a.page), ("per_page", PVal.i (min a.per_page 100))]
    ++ listEntry "include" a.incl
    ++ truthyEntry "jurisdiction" a.jurisdiction
    ++ truthyEntry "classification" a.classification
    ++ truthyEntry "parent" a.parent
    ++ truthyEntry "chamber" a.chamber

/-- Embeds `search_committees` (`src/app/tools/committees.py`).  Unlike
every other handler, its API-key `except` branch executes
`raise ValueError(e)`, producing a new exception that wraps the one
raised by `_validate_api_key` instead of re-raising it. -/
def search_committees (cfg : Config) (a : SearchCommitteesArgs)
    (upstream : HttpOutcome) : RunResult :=
  let j := optRepr a.jurisdiction
  let log0 : List LogEntry :=
    [⟨LogLevel.info, s!"Searching committees for jurisdiction: {j}"⟩]
  match _validate_api_key cfg.openstates_api_key with
  | Except.error e =>
      { log := log0 ++ [⟨LogLevel.error, e.str⟩], requests := [],
        outcome := Except.error (PyError.valueErrorOfError e) }
  | Except.ok api_key =>
      let req : Request :=
        { url := "https://v3.openstates.org/committees",
          params := searchCommittees_params a,
          headers := [("x-api-key", api_key)], timeout := 30 }
      gatewayCall log0 req upstream (searchSuccess log0 req (fun n => s!"Found {n} committees"))

/-- Embeds `get_committee_details` (`src/app/tools/committees.py`). -/
def get_committee_details (cfg : Config) (committee_id : String)
    (incl : Option (List String)) (upstream : HttpOutcome) : RunResult :=
  let log0 : List LogEntry :=
    [⟨LogLevel.info, s!"Getting committee details for: {committee_id}"⟩]
  match _validate_api_key cfg.openstates_api_key with
  | Except.error e =>
      { log := log0 ++ [⟨LogLevel.error, e.str⟩], requests := [],
        outcome := Except.error e }
  | Except.ok api_key =>
      let req : Request :=
        { url := "https://v3.openstates.org/committees/" ++ committee_id,
          params := listEntry "include" incl,
          headers := [("x-api-key", api_key)], timeout := 30 }
      gatewayCall log0 req upstream
        (getSuccess log0 req s!"Successfully retrieved committee {committee_id}")

/-- Arguments of `search_events` (`src/app/tools/events.py`), with the
source's defaults.  The two boolean flags are plain `bool` arguments
defaulting to `False`, never `None`. -/
structure SearchEventsArgs where
  jurisdiction : Option String := none
  deleted : Bool := false
  before : Option String := none
  after : Option String := none
  require_bills : Bool := false
  incl : Option (List String) := none
  page : Int := 1
  per_page : Int := 20
  deriving DecidableEq, Repr

/-- The query-parameter dict built by `search_events`.  This handler
filters its scalar `param_fields` with `value is not None` rather than
truthiness, so the two boolean flags are always present and an
explicitly supplied empty string is kept. -/
def searchEvents_params (a : SearchEventsArgs) : List (String × PVal) :=
  [("page", PVal.i a.page), ("per_page", PVal.i (min a.per_page 100))]
    ++ listEntry "include" a.incl
    ++ notNoneEntry "jurisdiction" a.jurisdiction
    ++ [("deleted", PVal.b a.deleted)]
    ++ notNoneEntry "before" a.before
    ++ notNoneEntry "after" a.after
    ++ [("require_bills", PVal.b a.require_bills)]

/-- Embeds `search_events` (`src/app/tools/events.py`). -/
def search_events (cfg : Config) (a : SearchEventsArgs) (upstream : HttpOutcome) :
    RunResult :=
  let j := optRepr a.jurisdiction
  let log0 : List LogEntry :=
    [⟨LogLevel.info, s!"Searching events for jurisdiction: {j}"⟩]
  match _validate_api_key cfg.openstates_api_key with
  | Except.error e =>
      { log := log0 ++ [⟨LogLevel.error, e.str⟩], requests := [],
        outcome := Except.error e }
  | Except.ok api_key =>
      let req : Request :=
        { url := "https://v3.openstates.org/events",
          params := searchEvents_params a,
          headers := [("x-api-key", api_key)], timeout := 30 }
      gatewayCall log0 req upstream (searchSuccess log0 req (fun n => s!"Found {n} events"))

/-- Embeds `get_event_details` (`src/app/tools/events.py`). -/
def get_event_details (cfg : Config) (event_id : String)
    (incl : Option (List String)) (upstream : HttpOutcome) : RunResult :=
  let log0 : List LogEntry :=
    [⟨LogLevel.info, s!"Getting event details for: {event_id}"⟩]
  match _validate_api_key cfg.openstates_api_key with
  | Except.error e =>
      { log := log0 ++ [⟨LogLevel.error, e.str⟩], requests := [],
        outcome := Except.error e }
  | Except.ok api_key =>
      let req : Request :=
        { url := "https://v3.openstates.org/events/" ++ event_id,
          params := listEntry "include" incl,
          headers := [("x-api-key", api_key)], timeout := 30 }
      gatewayCall log0 req upstream
        (getSuccess log0 req s!"Successfully retrieved event {event_id}")

/-- Arguments of `get_jurisdictions` (`src/app/tools/jurisdictions.py`),
with the source's defaults. -/
structure GetJurisdictionsArgs where
  classification : Option String := none
  incl : Option (List String) := none
  page : Int := 1
  per_page : Int := 52
  deriving DecidableEq, Repr

/-- The query-parameter dict built by `get_jurisdictions`. -/
def getJurisdictions_params (a : GetJurisdictionsArgs) : List (String × PVal) :=
  [("page", PVal.i a.page), ("per_page", PVal.i (min a.per_page 100))]
    ++ listEntry "include" a.incl
    ++ truthyEntry "classification" a.classification

/-- Embeds `get_jurisdictions` (`src/app/tools/jurisdictions.py`). -/
def get_jurisdictions (cfg : Config) (a : GetJurisdictionsArgs)
    (upstream : HttpOutcome) : RunResult :=
  let c := optRepr a.classification
  let log0 : List LogEntry :=
    [⟨LogLevel.info, s!"Getting list of jurisdictions with classification: {c}"⟩]
  match _validate_api_key cfg.openstates_api_key with
  | Except.error e =>
      { log := log0 ++ [⟨LogLevel.error, e.str⟩], requests := [],
        outcome := Except.error e }
  | Except.ok api_key =>
      let req : Request :=
        { url := "https://v3.openstates.org/jurisdictions",
          params := getJurisdictions_params a,
          headers := [("x-api-key", api_key)], timeout := 30 }
      gatewayCall log0 req upstream (searchSuccess log0 req (fun n => s!"Found {n} jurisdictions"))

/-- Embeds `get_jurisdiction_details` (`src/app/tools/jurisdictions.py`). -/
def get_jurisdiction_details (cfg : Config) (jurisdiction_id : String)
    (incl : Option (List String)) (upstream : HttpOutcome) : RunResult :=
  let log0 : List LogEntry :=
    [⟨LogLevel.info, s!"Getting jurisdiction details for: {jurisdiction_id}"⟩]
  match _validate_api_key cfg.openstates_api_key with
  | Except.error e =>
      { log := log0 ++ [⟨LogLevel.error, e.str⟩], requests := [],
        outcome := Except.error e }
  | Except.ok api_key =>
      let req : Request :=
        { url := "https://v3.openstates.org/jurisdictions/" ++ jurisdiction_id,
          params := listEntry "include" incl,
          headers := [("x-api-key", api_key)], timeout := 30 }
      gatewayCall log0 req upstream
        (getSuccess log0 req
          s!"Successfully retrieved jurisdiction {jurisdiction_id}")

/-- The ambient system state read by the `status` tool (`src/app/server.py`):
process creation time and current time in epoch seconds, resident-set
size in bytes, CPU load, interpreter version, Docker detection, the
version read from `pyproject.toml` (`none` models any read failure),
and the current ISO timestamp. -/
structure SystemInfo where
  create_time : Int
  now : Int
  rss_bytes : Nat
  cpu_percent : ℚ
  python_version : String
  docker : Bool
  pyproject_version : Option String
  timestamp : String
  deriving DecidableEq, Repr

/-- Embeds `get_version` (`src/app/server.py`): the version from
`pyproject.toml`, or "unknown" on any failure. -/
def get_version (pyproject_version : Option String) : String :=
  pyproject_version.getD "unknown"

/-- The uptime computed by `status`:
`(datetime.now(UTC) - process_start).total_seconds()`. -/
def uptime_seconds (sys : SystemInfo) : Int :=
  sys.now - sys.create_time

/-- Python's round-half-to-even on a rational. -/
def pyRoundHalfEven (x : ℚ) : ℤ :=
  if x - ⌊x⌋ < 1/2 then ⌊x⌋
  else if 1/2 < x - ⌊x⌋ then ⌊x⌋ + 1
  else if ⌊x⌋ % 2 = 0 then ⌊x⌋ else ⌊x⌋ + 1

/-- Python `round(x, 1)`. -/
def pyRound1 (x : ℚ) : ℚ :=
  (pyRoundHalfEven (10 * x) : ℚ) / 10

/-- Two-digit zero padding, as in the f-string `{hours:02d}`. -/
def pad2 (n : Int) : String :=
  if 0 ≤ n ∧ n < 10 then "0" ++ toString n else toString n

/-- The snapshot returned by the `status` tool, with the nested dicts of
the source flattened into one record. -/
structure StatusSnapshot where
  status : String
  service : String
  version : String
  timestamp : String
  runtime : String
  docker : Bool
  python_version : String
  process_uptime : String
  memory_mb : ℚ
  cpu_percent : ℚ
  tools_available : List String
  transport : String
  api_base : String
  host : String
  port : Int
  api_configured : Bool
  deriving DecidableEq, Repr

/-- The observable result of one `status` invocation. -/
structure StatusResult where
  log : List LogEntry
  requests : List Request
  snapshot : StatusSnapshot

/-- Embeds the `status` tool (`src/app/server.py`).  It reads only the
ambient system state and the configuration's host, port and API key; it
issues no HTTP request. -/
def status (cfg : Config) (sys : SystemInfo) : StatusResult :=
  let u := uptime_seconds sys
  let hours := u / 3600
  let remainder := u % 3600
  let minutes := remainder / 60
  let secs := remainder % 60
  let uptime := pad2 hours ++ ":" ++ pad2 minutes ++ ":" ++ pad2 secs
  let environment := if sys.docker then "docker" else "native"
  { log := [⟨LogLevel.info, "Status check requested"⟩],
    requests := [],
    snapshot :=
      { status := "healthy",
        service := "OpenStates MCP Server",
        version := get_version sys.pyproject_version,
        timestamp := sys.timestamp,
        runtime := environment,
        docker := sys.docker,
        python_version := sys.python_version,
        process_uptime := uptime,
        memory_mb := pyRound1 ((sys.rss_bytes : ℚ) / 1024 / 1024),
        cpu_percent := pyRound1 sys.cpu_percent,
        tools_available :=
          ["bills", "people", "committees", "events", "jurisdictions"],
        transport := "streamable-http",
        api_base := "https://v3.openstates.org",
        host := cfg.host,
        port := cfg.mcp_port,
        api_configured := strTruthy cfg.openstates_api_key } }

/-- Whether a log line is error-level. -/
def LogEntry.isError : LogEntry → Bool
  | ⟨LogLevel.error, _⟩ => true
  | ⟨LogLevel.info, _⟩ => false

/-- Number of error-level log lines of one invocation. -/
def errorLogCount (r : RunResult) : Nat :=
  List.countP LogEntry.isError r.log

/-- The message `_log_error` receives at the point an error is detected:
`str(e)` for the configuration `ValueError` (including the wrapped one,
whose `str` is its inner message), and the `_handle_api_error`
formatting for everything else. -/
def detectionMsg : PyError → String
  | .valueError m => m
  | .valueErrorOfError inner => inner.str
  | e => handleApiErrorMsg e

/-- Error-propagation discipline of one invocation: a successful call
logs no error line; a failing call logs exactly one error line, carrying
the detection message of the propagated error. -/
def logsOnceAndPropagates (r : RunResult) : Prop :=
  match r.outcome with
  | Except.ok _ => errorLogCount r = 0
  | Except.error e =>
      errorLogCount r = 1 ∧ LogEntry.mk LogLevel.error (detectionMsg e) ∈ r.log

/-- The invocation never raises a wrapping `ValueError(e)`. -/
def noWrap (r : RunResult) : Prop :=
  ∀ e, r.outcome ≠ Except.error (PyError.valueErrorOfError e)

theorem plookup_nil (k : String) : plookup [] k = none := rfl

theorem plookup_cons (k k' : String) (v : PVal) (ps : List (String × PVal)) :
    plookup ((k', v) :: ps) k = if k' = k then some v else plookup ps k := by
  by_cases h : k' = k <;> simp [plookup, List.find?, h]

theorem plookup_append (ps qs : List (String × PVal)) (k : String) :
    plookup (ps ++ qs) k =
      match plookup ps k with
      | some v => some v
      | none => plookup qs k := by
  induction ps with
  | nil => simp [plookup]
  | cons hd tl ih =>
      rcases hd with ⟨k', v⟩
      by_cases h : k' = k <;> simp [plookup_cons, h, ih]

theorem plookup_truthyEntry_ne (k k' : String) (v : Option String)
    (h : k' ≠ k) : plookup (truthyEntry k' v) k = none := by
  cases v with
  | none => rfl
  | some s =>
      simp only [truthyEntry]
      by_cases hs : s = "" <;> simp [hs, plookup_cons, h, plookup_nil]

theorem plookup_notNoneEntry_ne (k k' : String) (v : Option String)
    (h : k' ≠ k) : plookup (notNoneEntry k' v) k = none := by
  cases v with
  | none => rfl
  | some s => simp [notNoneEntry, plookup_cons, h, plookup_nil]

theorem plookup_listEntry_ne (k k' : String) (v : Option (List String))
    (h : k' ≠ k) : plookup (listEntry k' v) k = none := by
  cases v with
  | none => rfl
  | some l =>
      simp only [listEntry]
      by_cases hl : l = [] <;> simp [hl, plookup_cons, h, plookup_nil]

theorem plookup_listEntry_self (k : String) (l : List String) (h : l ≠ []) :
    plookup (listEntry k (some l)) k = some (PVal.l l) := by
  simp [listEntry, h, plookup_cons]

theorem pkeys_append (ps qs : List (String × PVal)) :
    pkeys (ps ++ qs) = pkeys ps ++ pkeys qs := by
  simp [pkeys]

theorem mem_pkeys_truthyEntry (s k : String) (v : Option String) :
    s ∈ pkeys (truthyEntry k v) ↔ strTruthy v = true ∧ s = k := by
  cases v with
  | none => simp [truthyEntry, pkeys, strTruthy]
  | some str =>
      simp only [truthyEntry, strTruthy]
      by_cases hs : str = "" <;> simp [hs, pkeys]

theorem mem_pkeys_notNoneEntry (s k : String) (v : Option String) :
    s ∈ pkeys (notNoneEntry k v) ↔ v.isSome = true ∧ s = k := by
  cases v <;> simp [notNoneEntry, pkeys]

theorem mem_pkeys_listEntry (s k : String) (v : Option (List String)) :
    s ∈ pkeys (listEntry k v) ↔ listTruthy v = true ∧ s = k := by
  cases v with
  | none => simp [listEntry, pkeys, listTruthy]
  | some l =>
      simp only [listEntry, listTruthy]
      by_cases hl : l = [] <;> simp [hl, pkeys]

theorem plookup_reqStrEntry_ne (k k' : String) (s : String) (h : k' ≠ k) :
    plookup (reqStrEntry k' s) k = none := by
  simp only [reqStrEntry]
  by_cases hs : s = "" <;> simp [hs, plookup_cons, h, plookup_nil]

theorem pkeys_nil : pkeys [] = [] := rfl

theorem pkeys_cons (k : String) (v : PVal) (ps : List (String × PVal)) :
    pkeys ((k, v) :: ps) = k :: pkeys ps := rfl

theorem mem_pkeys_reqStrEntry (x k : String) (s : String) :
    x ∈ pkeys (reqStrEntry k s) ↔ s ≠ "" ∧ x = k := by
  simp only [reqStrEntry]
  by_cases hs : s = "" <;> simp [hs, pkeys]

theorem validate_error_of_falsy {k : Option String}
    (h : strTruthy k = false) :
    _validate_api_key k = Except.error (PyError.valueError apiKeyErrorMsg) := by
  cases k with
  | none => rfl
  | some s =>
      simp [strTruthy] at h
      simp [_validate_api_key, h]

theorem validate_ok_of_truthy {k : Option String}
    (h : strTruthy k = true) :
    ∃ s, k = some s ∧ s ≠ "" ∧ _validate_api_key k = Except.ok s := by
  cases k with
  | none => simp [strTruthy] at h
  | some s =>
      simp [strTruthy] at h
      exact ⟨s, rfl, h, by simp [_validate_api_key, h]⟩

/-- C1: for every tool operation across all five resource groups, when
no API key is configured (unset or empty) the call issues no HTTP
request, raises the configuration `ValueError` with its descriptive
message (in `search_committees`, re-signaled wrapped in a fresh
`ValueError`), and logs that message through the error channel shared
with network failures. -/
theorem apiKey_required_before_network (cfg : Config)
    (h : strTruthy cfg.openstates_api_key = false) :
    (∀ a u, (search_bills cfg a u).requests = [] ∧
      (search_bills cfg a u).outcome
        = Except.error (PyError.valueError apiKeyErrorMsg) ∧
      LogEntry.mk LogLevel.error apiKeyErrorMsg ∈ (search_bills cfg a u).log) ∧
    (∀ x incl u, (get_bill_by_id cfg x incl u).requests = [] ∧
      (get_bill_by_id cfg x incl u).outcome
        = Except.error (PyError.valueError apiKeyErrorMsg) ∧
      LogEntry.mk LogLevel.error apiKeyErrorMsg ∈ (get_bill_by_id cfg x incl u).log) ∧
    (∀ x y z incl u, (get_bill_details cfg x y z incl u).requests = [] ∧
      (get_bill_details cfg x y z incl u).outcome
        = Except.error (PyError.valueError apiKeyErrorMsg) ∧
      LogEntry.mk LogLevel.error apiKeyErrorMsg ∈ (get_bill_details cfg x y z incl u).log) ∧
    (∀ a u, (search_people cfg a u).requests = [] ∧
      (search_people cfg a u).outcome
        = Except.error (PyError.valueError apiKeyErrorMsg) ∧
      LogEntry.mk LogLevel.error apiKeyErrorMsg ∈ (search_people cfg a u).log) ∧
    (∀ lat lng u, (get_legislators_by_location cfg lat lng u).requests = [] ∧
      (get_legislators_by_location cfg lat lng u).outcome
        = Except.error (PyError.valueError apiKeyErrorMsg) ∧
      LogEntry.mk LogLevel.error apiKeyErrorMsg
        ∈ (get_legislators_by_location cfg lat lng u).log) ∧
    (∀ a u, (search_committees cfg a u).requests = [] ∧
      (search_committees cfg a u).outcome
        = Except.error (PyError.valueErrorOfError (PyError.valueError apiKeyErrorMsg)) ∧
      LogEntry.mk LogLevel.error apiKeyErrorMsg ∈ (search_committees cfg a u).log) ∧
    (∀ x incl u, (get_committee_details cfg x incl u).requests = [] ∧
      (get_committee_details cfg x incl u).outcome
        = Except.error (PyError.valueError apiKeyErrorMsg) ∧
      LogEntry.mk LogLevel.error apiKeyErrorMsg
        ∈ (get_committee_details cfg x incl u).log) ∧
    (∀ a u, (search_events cfg a u).requests = [] ∧
      (search_events cfg a u).outcome
        = Except.error (PyError.valueError apiKeyErrorMsg) ∧
      LogEntry.mk LogLevel.error apiKeyErrorMsg ∈ (search_events cfg a u).log) ∧
    (∀ x incl u, (get_event_details cfg x incl u).requests = [] ∧
      (get_event_details cfg x incl u).outcome
        = Except.error (PyError.valueError apiKeyErrorMsg) ∧
      LogEntry.mk LogLevel.error apiKeyErrorMsg ∈ (get_event_details cfg x incl u).log) ∧
    (∀ a u, (get_jurisdictions cfg a u).requests = [] ∧
      (get_jurisdictions cfg a u).outcome
        = Except.error (PyError.valueError apiKeyErrorMsg) ∧
      LogEntry.mk LogLevel.error apiKeyErrorMsg ∈ (get_jurisdictions cfg a u).log) ∧
    (∀ x incl u, (get_jurisdiction_details cfg x incl u).requests = [] ∧
      (get_jurisdiction_details cfg x incl u).outcome
        = Except.error (PyError.valueError apiKeyErrorMsg) ∧
      LogEntry.mk LogLevel.error apiKeyErrorMsg
        ∈ (get_jurisdiction_details cfg x incl u).log) := by
  have hv := validate_error_of_falsy h
  refine ⟨fun a u => ?_, fun x incl u => ?_, fun x y z incl u => ?_,
    fun a u => ?_, fun lat lng u => ?_, fun a u => ?_, fun x incl u => ?_,
    fun a u => ?_, fun x incl u => ?_, fun a u => ?_, fun x incl u => ?_⟩
  · simp [search_bills, hv, PyError.str]
  · simp [get_bill_by_id, hv, PyError.str]
  · simp [get_bill_details, hv, PyError.str]
  · simp [search_people, hv, PyError.str]
  · simp [get_legislators_by_location, hv, PyError.str]
  · simp [search_committees, hv, PyError.str]
  · simp [get_committee_details, hv, PyError.str]
  · simp [search_events, hv, PyError.str]
  · simp [get_event_details, hv, PyError.str]
  · simp [get_jurisdictions, hv, PyError.str]
  · simp [get_jurisdiction_details, hv, PyError.str]

/-- Witness for C1 at the default configuration (API key unset): a
bills search and a committees search issue no request and raise the
configuration error. -/
theorem apiKey_required_before_network_witness :
    (search_bills {} {} (HttpOutcome.requestError "net down")).requests = [] ∧
    (search_bills {} {} (HttpOutcome.requestError "net down")).outcome
      = Except.error (PyError.valueError apiKeyErrorMsg) ∧
    (search_committees {} {} (HttpOutcome.requestError "net down")).outcome
      = Except.error (PyError.valueErrorOfError (PyError.valueError apiKeyErrorMsg)) := by
  have h := apiKey_required_before_network {} rfl
  exact ⟨(h.1 {} (HttpOutcome.requestError "net down")).1,
    (h.1 {} (HttpOutcome.requestError "net down")).2.1,
    (h.2.2.2.2.2.1 {} (HttpOutcome.requestError "net down")).2.1⟩

/-- C3: in every list operation the `per_page` parameter sent upstream
is `min(per_page, 100)`; values above 100 become exactly 100, values at
or below 100 pass through unchanged, and the clamp is idempotent. -/
theorem per_page_clamped :
    (∀ a : SearchBillsArgs,
      plookup (searchBills_params a) "per_page" = some (PVal.i (min a.per_page 100))) ∧
    (∀ a : SearchPeopleArgs,
      plookup (searchPeople_params a) "per_page" = some (PVal.i (min a.per_page 100))) ∧
    (∀ a : SearchCommitteesArgs,
      plookup (searchCommittees_params a) "per_page" = some (PVal.i (min a.per_page 100))) ∧
    (∀ a : SearchEventsArgs,
      plookup (searchEvents_params a) "per_page" = some (PVal.i (min a.per_page 100))) ∧
    (∀ a : GetJurisdictionsArgs,
      plookup (getJurisdictions_params a) "per_page" = some (PVal.i (min a.per_page 100))) ∧
    (∀ p : Int, 100 < p → min p 100 = 100) ∧
    (∀ p : Int, p ≤ 100 → min p 100 = p) ∧
    (∀ p : Int, min (min p 100) 100 = min p 100) := by
  refine ⟨fun a => ?_, fun a => ?_, fun a => ?_, fun a => ?_, fun a => ?_,
    fun p h => ?_, fun p h => ?_, fun p => ?_⟩
  · simp [searchBills_params, plookup_append, plookup_cons]
  · simp [searchPeople_params, plookup_append, plookup_cons]
  · simp [searchCommittees_params, plookup_append, plookup_cons]
  · simp [searchEvents_params, plookup_append, plookup_cons]
  · simp [getJurisdictions_params, plookup_append, plookup_cons]
  · omega
  · omega
  · omega

/-- Witness for C3: a bills search asking for 250 results per page
sends exactly 100, and the in-range default 52 of `get_jurisdictions`
passes through. -/
theorem per_page_clamped_witness :
    plookup (searchBills_params { per_page := 250 }) "per_page"
      = some (PVal.i 100) ∧
    plookup (getJurisdictions_params {}) "per_page" = some (PVal.i 52) ∧
    min (250 : Int) 100 = 100 ∧ min (52 : Int) 100 = 52 := by
  refine ⟨?_, ?_, per_page_clamped.2.2.2.2.2.1 250 (by norm_num),
    per_page_clamped.2.2.2.2.2.2.1 52 (by norm_num)⟩
  · exact (per_page_clamped.1 { per_page := 250 }).trans (by decide)
  · exact (per_page_clamped.2.2.2.2.1 {}).trans (by decide)

/-- C5: in every list operation, a non-empty list-valued filter is
serialized as a repeated parameter bound to exactly the caller's list,
with the same elements in the same order and count. -/
theorem list_filters_preserved :
    (∀ (a : SearchBillsArgs) (l : List String), a.identifier = some l → l ≠ [] →
      plookup (searchBills_params a) "identifier" = some (PVal.l l)) ∧
    (∀ (a : SearchBillsArgs) (l : List String), a.subject = some l → l ≠ [] →
      plookup (searchBills_params a) "subject" = some (PVal.l l)) ∧
    (∀ (a : SearchBillsArgs) (l : List String), a.incl = some l → l ≠ [] →
      plookup (searchBills_params a) "include" = some (PVal.l l)) ∧
    (∀ (a : SearchPeopleArgs) (l : List String), a.id = some l → l ≠ [] →
      plookup (searchPeople_params a) "id" = some (PVal.l l)) ∧
    (∀ (a : SearchPeopleArgs) (l : List String), a.incl = some l → l ≠ [] →
      plookup (searchPeople_params a) "include" = some (PVal.l l)) ∧
    (∀ (a : SearchCommitteesArgs) (l : List String), a.incl = some l → l ≠ [] →
      plookup (searchCommittees_params a) "include" = some (PVal.l l)) ∧
    (∀ (a : SearchEventsArgs) (l : List String), a.incl = some l → l ≠ [] →
      plookup (searchEvents_params a) "include" = some (PVal.l l)) ∧
    (∀ (a : GetJurisdictionsArgs) (l : List String), a.incl = some l → l ≠ [] →
      plookup (getJurisdictions_params a) "include" = some (PVal.l l)) := by
  refine ⟨fun a l h hne => ?_, fun a l h hne => ?_, fun a l h hne => ?_,
    fun a l h hne => ?_, fun a l h hne => ?_, fun a l h hne => ?_,
    fun a l h hne => ?_, fun a l h hne => ?_⟩ <;>
    simp [searchBills_params, searchPeople_params, searchCommittees_params,
      searchEvents_params, getJurisdictions_params, plookup_append,
      plookup_cons, plookup_listEntry_ne, plookup_listEntry_self, h, hne]

/-- Witness for C5: two identifiers supplied to `search_bills` arrive
as the same two-element list, in order. -/
theorem list_filters_preserved_witness :
    plookup (searchBills_params { identifier := some ["HB1", "SB2"] }) "identifier"
      = some (PVal.l ["HB1", "SB2"]) :=
  list_filters_preserved.1 { identifier := some ["HB1", "SB2"] } ["HB1", "SB2"]
    rfl (by decide)

/-- C2 counterexample: with every argument left at its default,
`search_events` still sends `deleted=False` and `require_bills=False`,
and `search_bills` still sends `sort=updated_desc` — omitted arguments
whose keys (none of them `page` or `per_page`) appear in the
constructed query parameters. -/
theorem omitted_filter_absent_counterexample :
    plookup (searchEvents_params {}) "deleted" = some (PVal.b false) ∧
    plookup (searchEvents_params {}) "require_bills" = some (PVal.b false) ∧
    plookup (searchBills_params {}) "sort" = some (PVal.s "updated_desc") ∧
    "deleted" ≠ "page" ∧ "deleted" ≠ "per_page" ∧
    "sort" ≠ "page" ∧ "sort" ≠ "per_page" := by
  decide

/-- C2 amended: in every list operation, an optional filter argument
whose default is `None` contributes no key to the query parameters when
omitted; the arguments with non-`None` defaults — `sort` in
`search_bills` and the boolean flags `deleted` and `require_bills` in
`search_events` — appear even when omitted, as do the always-present
pagination keys `page` and `per_page`. -/
theorem omitted_none_default_filter_absent :
    (∀ a : SearchBillsArgs,
      (a.jurisdiction = none → "jurisdiction" ∉ pkeys (searchBills_params a)) ∧
      (a.session = none → "session" ∉ pkeys (searchBills_params a)) ∧
      (a.chamber = none → "chamber" ∉ pkeys (searchBills_params a)) ∧
      (a.classification = none → "classification" ∉ pkeys (searchBills_params a)) ∧
      (a.updated_since = none → "updated_since" ∉ pkeys (searchBills_params a)) ∧
      (a.created_since = none → "created_since" ∉ pkeys (searchBills_params a)) ∧
      (a.action_since = none → "action_since" ∉ pkeys (searchBills_params a)) ∧
      (a.sponsor = none → "sponsor" ∉ pkeys (searchBills_params a)) ∧
      (a.sponsor_classification = none →
        "sponsor_classification" ∉ pkeys (searchBills_params a)) ∧
      (a.q = none → "q" ∉ pkeys (searchBills_params a)) ∧
      (a.identifier = none → "identifier" ∉ pkeys (searchBills_params a)) ∧
      (a.subject = none → "subject" ∉ pkeys (searchBills_params a)) ∧
      (a.incl = none → "include" ∉ pkeys (searchBills_params a)) ∧
      (a.sort = "updated_desc" → "sort" ∈ pkeys (searchBills_params a)) ∧
      "page" ∈ pkeys (searchBills_params a) ∧
      "per_page" ∈ pkeys (searchBills_params a)) ∧
    (∀ a : SearchPeopleArgs,
      (a.jurisdiction = none → "jurisdiction" ∉ pkeys (searchPeople_params a)) ∧
      (a.name = none → "name" ∉ pkeys (searchPeople_params a)) ∧
      (a.org_classification = none →
        "org_classification" ∉ pkeys (searchPeople_params a)) ∧
      (a.district = none → "district" ∉ pkeys (searchPeople_params a)) ∧
      (a.id = none → "id" ∉ pkeys (searchPeople_params a)) ∧
      (a.incl = none → "include" ∉ pkeys (searchPeople_params a)) ∧
      "page" ∈ pkeys (searchPeople_params a) ∧
      "per_page" ∈ pkeys (searchPeople_params a)) ∧
    (∀ a : SearchCommitteesArgs,
      (a.jurisdiction = none → "jurisdiction" ∉ pkeys (searchCommittees_params a)) ∧
      (a.classification = none →
        "classification" ∉ pkeys (searchCommittees_params a)) ∧
      (a.parent = none → "parent" ∉ pkeys (searchCommittees_params a)) ∧
      (a.chamber = none → "chamber" ∉ pkeys (searchCommittees_params a)) ∧
      (a.incl = none → "include" ∉ pkeys (searchCommittees_params a)) ∧
      "page" ∈ pkeys (searchCommittees_params a) ∧
      "per_page" ∈ pkeys (searchCommittees_params a)) ∧
    (∀ a : SearchEventsArgs,
      (a.jurisdiction = none → "jurisdiction" ∉ pkeys (searchEvents_params a)) ∧
      (a.before = none → "before" ∉ pkeys (searchEvents_params a)) ∧
      (a.after = none → "after" ∉ pkeys (searchEvents_params a)) ∧
      (a.incl = none → "include" ∉ pkeys (searchEvents_params a)) ∧
      "deleted" ∈ pkeys (searchEvents_params a) ∧
      "require_bills" ∈ pkeys (searchEvents_params a) ∧
      "page" ∈ pkeys (searchEvents_params a) ∧
      "per_page" ∈ pkeys (searchEvents_params a)) ∧
    (∀ a : GetJurisdictionsArgs,
      (a.classification = none →
        "classification" ∉ pkeys (getJurisdictions_params a)) ∧
      (a.incl = none → "include" ∉ pkeys (getJurisdictions_params a)) ∧
      "page" ∈ pkeys (getJurisdictions_params a) ∧
      "per_page" ∈ pkeys (getJurisdictions_params a)) := by
  refine ⟨fun a => ⟨?_, ?_, ?_, ?_, ?_, ?_, ?_, ?_, ?_, ?_, ?_, ?_, ?_, ?_, ?_, ?_⟩,
    fun a => ⟨?_, ?_, ?_, ?_, ?_, ?_, ?_, ?_⟩,
    fun a => ⟨?_, ?_, ?_, ?_, ?_, ?_, ?_⟩,
    fun a => ⟨?_, ?_, ?_, ?_, ?_, ?_, ?_, ?_⟩,
    fun a => ⟨?_, ?_, ?_, ?_⟩⟩ <;>
  · try intro h
    simp [searchBills_params, searchPeople_params, searchCommittees_params,
      searchEvents_params, getJurisdictions_params, pkeys_append, pkeys_cons,
      pkeys_nil, mem_pkeys_truthyEntry, mem_pkeys_listEntry,
      mem_pkeys_notNoneEntry, mem_pkeys_reqStrEntry, strTruthy, listTruthy, *]

/-- Witness for C2 amended at concrete arguments: with only a
jurisdiction supplied, the bills query has no `q` key, and the default
jurisdictions query has no `classification` key. -/
theorem omitted_none_default_filter_absent_witness :
    "q" ∉ pkeys (searchBills_params { jurisdiction := some "ca" }) ∧
    "classification" ∉ pkeys (getJurisdictions_params {}) :=
  ⟨((omitted_none_default_filter_absent.1
      { jurisdiction := some "ca" }).2.2.2.2.2.2.2.2.2.1) rfl,
    ((omitted_none_default_filter_absent.2.2.2.2 {}).1) rfl⟩

/-- C9 counterexample: `search_events` supplied with an explicit empty
jurisdiction string sends `jurisdiction=""` upstream — the empty value
is not dropped, and the constructed parameters differ from those of an
omitted jurisdiction. -/
theorem falsy_value_dropped_counterexample :
    plookup (searchEvents_params { jurisdiction := some "" }) "jurisdiction"
      = some (PVal.s "") ∧
    searchEvents_params { jurisdiction := some "" } ≠ searchEvents_params {} := by
  decide

/-- C9 amended: in `search_bills`, `search_people`, `search_committees`
and `get_jurisdictions`, an explicitly supplied empty string for an
optional scalar filter is silently dropped, making it indistinguishable
upstream from an omitted argument, and an explicitly supplied empty
list is likewise dropped; `search_events` drops a scalar only when it
is `None`, so an explicit empty string there is sent as an
empty-valued parameter (empty list filters are still dropped). -/
theorem falsy_scalar_dropped_outside_events :
    (∀ a : SearchBillsArgs,
      searchBills_params { a with jurisdiction := some "" }
        = searchBills_params { a with jurisdiction := none } ∧
      searchBills_params { a with session := some "" }
        = searchBills_params { a with session := none } ∧
      searchBills_params { a with chamber := some "" }
        = searchBills_params { a with chamber := none } ∧
      searchBills_params { a with classification := some "" }
        = searchBills_params { a with classification := none } ∧
      searchBills_params { a with updated_since := some "" }
        = searchBills_params { a with updated_since := none } ∧
      searchBills_params { a with created_since := some "" }
        = searchBills_params { a with created_since := none } ∧
      searchBills_params { a with action_since := some "" }
        = searchBills_params { a with action_since := none } ∧
      searchBills_params { a with sponsor := some "" }
        = searchBills_params { a with sponsor := none } ∧
      searchBills_params { a with sponsor_classification := some "" }
        = searchBills_params { a with sponsor_classification := none } ∧
      searchBills_params { a with q := some "" }
        = searchBills_params { a with q := none } ∧
      searchBills_params { a with identifier := some [] }
        = searchBills_params { a with identifier := none }) ∧
    (∀ a : SearchPeopleArgs,
      searchPeople_params { a with jurisdiction := some "" }
        = searchPeople_params { a with jurisdiction := none } ∧
      searchPeople_params { a with name := some "" }
        = searchPeople_params { a with name := none } ∧
      searchPeople_params { a with org_classification := some "" }
        = searchPeople_params { a with org_classification := none } ∧
      searchPeople_params { a with district := some "" }
        = searchPeople_params { a with district := none } ∧
      searchPeople_params { a with id := some [] }
        = searchPeople_params { a with id := none }) ∧
    (∀ a : SearchCommitteesArgs,
      searchCommittees_params { a with jurisdiction := some "" }
        = searchCommittees_params { a with jurisdiction := none } ∧
      searchCommittees_params { a with classification := some "" }
        = searchCommittees_params { a with classification := none } ∧
      searchCommittees_params { a with parent := some "" }
        = searchCommittees_params { a with parent := none } ∧
      searchCommittees_params { a with chamber := some "" }
        = searchCommittees_params { a with chamber := none } ∧
      searchCommittees_params { a with incl := some [] }
        = searchCommittees_params { a with incl := none }) ∧
    (∀ a : GetJurisdictionsArgs,
      getJurisdictions_params { a with classification := some "" }
        = getJurisdictions_params { a with classification := none } ∧
      getJurisdictions_params { a with incl := some [] }
        = getJurisdictions_params { a with incl := none }) ∧
    (∀ a : SearchEventsArgs,
      plookup (searchEvents_params { a with jurisdiction := some "" }) "jurisdiction"
        = some (PVal.s "") ∧
      searchEvents_params { a with incl := some [] }
        = searchEvents_params { a with incl := none }) := by
  refine ⟨fun a => ⟨?_, ?_, ?_, ?_, ?_, ?_, ?_, ?_, ?_, ?_, ?_⟩,
    fun a => ⟨?_, ?_, ?_, ?_, ?_⟩, fun a => ⟨?_, ?_, ?_, ?_, ?_⟩,
    fun a => ⟨?_, ?_⟩, fun a => ⟨?_, ?_⟩⟩ <;>
    first
      | (simp [searchEvents_params, plookup_append, plookup_cons,
          plookup_listEntry_ne, notNoneEntry]; done)
      | simp [searchBills_params, searchPeople_params, searchCommittees_params,
          searchEvents_params, getJurisdictions_params, truthyEntry, listEntry,
          notNoneEntry]

theorem pyRoundHalfEven_nonneg {x : ℚ} (h : 0 ≤ x) : 0 ≤ pyRoundHalfEven x := by
  have hfl : (0 : ℤ) ≤ ⌊x⌋ := Int.floor_nonneg.mpr h
  unfold pyRoundHalfEven
  split_ifs <;> omega

theorem pyRound1_nonneg {x : ℚ} (h : 0 ≤ x) : 0 ≤ pyRound1 x := by
  unfold pyRound1
  have h10 : (0 : ℚ) ≤ (pyRoundHalfEven (10 * x) : ℚ) := by
    exact_mod_cast pyRoundHalfEven_nonneg (by positivity)
  positivity

/-- C7: the status operation issues no HTTP request, and every call
returns a snapshot whose status field is "healthy", with a non-negative
uptime (whenever the clock has not run backwards past the process
creation time) and a non-negative memory value. -/
theorem status_healthy_no_network (cfg : Config) (sys : SystemInfo)
    (h : sys.create_time ≤ sys.now) :
    (status cfg sys).requests = [] ∧
    (status cfg sys).snapshot.status = "healthy" ∧
    0 ≤ uptime_seconds sys ∧
    0 ≤ (status cfg sys).snapshot.memory_mb := by
  refine ⟨rfl, rfl, by unfold uptime_seconds; omega, ?_⟩
  show 0 ≤ pyRound1 ((sys.rss_bytes : ℚ) / 1024 / 1024)
  apply pyRound1_nonneg
  positivity

/-- Witness for C7 at a concrete system state. -/
theorem status_healthy_no_network_witness :
    (status {} ⟨100, 250, 52428800, 3/10, "3.12.4", false, some "0.1.0", "t"⟩).requests
      = [] ∧
    (status {} ⟨100, 250, 52428800, 3/10, "3.12.4", false, some "0.1.0", "t"⟩).snapshot.status
      = "healthy" ∧
    0 ≤ uptime_seconds ⟨100, 250, 52428800, 3/10, "3.12.4", false, some "0.1.0", "t"⟩ ∧
    0 ≤ (status {} ⟨100, 250, 52428800, 3/10, "3.12.4", false, some "0.1.0", "t"⟩).snapshot.memory_mb :=
  status_healthy_no_network {} ⟨100, 250, 52428800, 3/10, "3.12.4", false, some "0.1.0", "t"⟩
    (by norm_num)

theorem searchSuccess_requests (log0 : List LogEntry) (req : Request)
    (foundMsg : Nat → String) (body : Json) :
    (searchSuccess log0 req foundMsg body).requests = [req] := by
  unfold searchSuccess
  split
  · rfl
  · split <;> rfl

theorem gatewayCall_requests (log0 : List LogEntry) (req : Request)
    (u : HttpOutcome) (okResult : Json → RunResult)
    (hok : ∀ body, (okResult body).requests = [req]) :
    (gatewayCall log0 req u okResult).requests = [req] := by
  cases u with
  | success body => exact hok body
  | statusError c m => rfl
  | requestError m => rfl

theorem gatewayCall_requests_search (log0 : List LogEntry) (req : Request)
    (foundMsg : Nat → String) (u : HttpOutcome) :
    (gatewayCall log0 req u (searchSuccess log0 req foundMsg)).requests = [req] :=
  gatewayCall_requests log0 req u _ (fun body => searchSuccess_requests log0 req foundMsg body)

theorem gatewayCall_requests_get (log0 : List LogEntry) (req : Request)
    (okMsg : String) (u : HttpOutcome) :
    (gatewayCall log0 req u (getSuccess log0 req okMsg)).requests = [req] :=
  gatewayCall_requests log0 req u _ (fun _ => rfl)

theorem search_bills_requests (cfg : Config) (a : SearchBillsArgs)
    (u : HttpOutcome) :
    (search_bills cfg a u).requests
      = match _validate_api_key cfg.openstates_api_key with
        | Except.error _ => []
        | Except.ok k =>
            [{ url := "https://v3.openstates.org/bills",
               params := searchBills_params a,
               headers := [("x-api-key", k)], timeout := 30 }] := by
  cases hv : _validate_api_key cfg.openstates_api_key with
  | error e => simp [search_bills, hv]
  | ok k => simp [search_bills, hv, gatewayCall_requests_search]

theorem get_bill_by_id_requests (cfg : Config) (x : String)
    (incl : Option (List String)) (u : HttpOutcome) :
    (get_bill_by_id cfg x incl u).requests
      = match _validate_api_key cfg.openstates_api_key with
        | Except.error _ => []
        | Except.ok k =>
            [{ url := "https://v3.openstates.org/bills/ocd-bill/" ++ x,
               params := listEntry "include" incl,
               headers := [("x-api-key", k)], timeout := 30 }] := by
  cases hv : _validate_api_key cfg.openstates_api_key with
  | error e => simp [get_bill_by_id, hv]
  | ok k => simp [get_bill_by_id, hv, gatewayCall_requests_get]

theorem get_bill_details_requests (cfg : Config) (x y z : String)
    (incl : Option (List String)) (u : HttpOutcome) :
    (get_bill_details cfg x y z incl u).requests
      = match _validate_api_key cfg.openstates_api_key with
        | Except.error _ => []
        | Except.ok k =>
            [{ url := "https://v3.openstates.org/bills/" ++ x ++ "/" ++ y ++ "/" ++ z,
               params := listEntry "include" incl,
               headers := [("x-api-key", k)], timeout := 30 }] := by
  cases hv : _validate_api_key cfg.openstates_api_key with
  | error e => simp [get_bill_details, hv]
  | ok k => simp [get_bill_details, hv, gatewayCall_requests_get]

theorem search_people_requests (cfg : Config) (a : SearchPeopleArgs)
    (u : HttpOutcome) :
    (search_people cfg a u).requests
      = match _validate_api_key cfg.openstates_api_key with
        | Except.error _ => []
        | Except.ok k =>
            [{ url := "https://v3.openstates.org/people",
               params := searchPeople_params a,
               headers := [("x-api-key", k)], timeout := 30 }] := by
  cases hv : _validate_api_key cfg.openstates_api_key with
  | error e => simp [search_people, hv]
  | ok k => simp [search_people, hv, gatewayCall_requests_search]

theorem get_legislators_by_location_requests (cfg : Config) (lat lng : ℚ)
    (u : HttpOutcome) :
    (get_legislators_by_location cfg lat lng u).requests
      = match _validate_api_key cfg.openstates_api_key with
        | Except.error _ => []
        | Except.ok k =>
            [{ url := "https://v3.openstates.org/people.geo",
               params := [("lat", PVal.f lat), ("lng", PVal.f lng)],
               headers := [("x-api-key", k)], timeout := 30 }] := by
  cases hv : _validate_api_key cfg.openstates_api_key with
  | error e => simp [get_legislators_by_location, hv]
  | ok k => simp [get_legislators_by_location, hv, gatewayCall_requests_get]

theorem search_committees_requests (cfg : Config) (a : SearchCommitteesArgs)
    (u : HttpOutcome) :
    (search_committees cfg a u).requests
      = match _validate_api_key cfg.openstates_api_key with
        | Except.error _ => []
        | Except.ok k =>
            [{ url := "https://v3.openstates.org/committees",
               params := searchCommittees_params a,
               headers := [("x-api-key", k)], timeout := 30 }] := by
  cases hv : _validate_api_key cfg.openstates_api_key with
  | error e => simp [search_committees, hv]
  | ok k => simp [search_committees, hv, gatewayCall_requests_search]

theorem get_committee_details_requests (cfg : Config) (x : String)
    (incl : Option (List String)) (u : HttpOutcome) :
    (get_committee_details cfg x incl u).requests
      = match _validate_api_key cfg.openstates_api_key with
        | Except.error _ => []
        | Except.ok k =>
            [{ url := "https://v3.openstates.org/committees/" ++ x,
               params := listEntry "include" incl,
               headers := [("x-api-key", k)], timeout := 30 }] := by
  cases hv : _validate_api_key cfg.openstates_api_key with
  | error e => simp [get_committee_details, hv]
  | ok k => simp [get_committee_details, hv, gatewayCall_requests_get]

theorem search_events_requests (cfg : Config) (a : SearchEventsArgs)
    (u : HttpOutcome) :
    (search_events cfg a u).requests
      = match _validate_api_key cfg.openstates_api_key with
        | Except.error _ => []
        | Except.ok k =>
            [{ url := "https://v3.openstates.org/events",
               params := searchEvents_params a,
               headers := [("x-api-key", k)], timeout := 30 }] := by
  cases hv : _validate_api_key cfg.openstates_api_key with
  | error e => simp [search_events, hv]
  | ok k => simp [search_events, hv, gatewayCall_requests_search]

theorem get_event_details_requests (cfg : Config) (x : String)
    (incl : Option (List String)) (u : HttpOutcome) :
    (get_event_details cfg x incl u).requests
      = match _validate_api_key cfg.openstates_api_key with
        | Except.error _ => []
        | Except.ok k =>
            [{ url := "https://v3.openstates.org/events/" ++ x,
               params := listEntry "include" incl,
               headers := [("x-api-key", k)], timeout := 30 }] := by
  cases hv : _validate_api_key cfg.openstates_api_key with
  | error e => simp [get_event_details, hv]
  | ok k => simp [get_event_details, hv, gatewayCall_requests_get]

theorem get_jurisdictions_requests (cfg : Config) (a : GetJurisdictionsArgs)
    (u : HttpOutcome) :
    (get_jurisdictions cfg a u).requests
      = match _validate_api_key cfg.openstates_api_key with
        | Except.error _ => []
        | Except.ok k =>
            [{ url := "https://v3.openstates.org/jurisdictions",
               params := getJurisdictions_params a,
               headers := [("x-api-key", k)], timeout := 30 }] := by
  cases hv : _validate_api_key cfg.openstates_api_key with
  | error e => simp [get_jurisdictions, hv]
  | ok k => simp [get_jurisdictions, hv, gatewayCall_requests_search]

theorem get_jurisdiction_details_requests (cfg : Config) (x : String)
    (incl : Option (List String)) (u : HttpOutcome) :
    (get_jurisdiction_details cfg x incl u).requests
      = match _validate_api_key cfg.openstates_api_key with
        | Except.error _ => []
        | Except.ok k =>
            [{ url := "https://v3.openstates.org/jurisdictions/" ++ x,
               params := listEntry "include" incl,
               headers := [("x-api-key", k)], timeout := 30 }] := by
  cases hv : _validate_api_key cfg.openstates_api_key with
  | error e => simp [get_jurisdiction_details, hv]
  | ok k => simp [get_jurisdiction_details, hv, gatewayCall_requests_get]

theorem requests_spec_of_match {key : Option String} {reqs : List Request}
    (f : String → Request)
    (h : reqs = match _validate_api_key key with
      | Except.error _ => []
      | Except.ok k => [f k])
    (ht : ∀ k, (f k).timeout = 30) :
    reqs.length ≤ 1 ∧ (strTruthy key = true → reqs.length = 1) ∧
      ∀ r ∈ reqs, r.timeout = 30 := by
  cases hv : _validate_api_key key with
  | error e =>
      rw [hv] at h
      refine ⟨by simp [h], fun htr => ?_, by simp [h]⟩
      obtain ⟨s, hs, hne, hok⟩ := validate_ok_of_truthy htr
      rw [hok] at hv
      cases hv
  | ok k =>
      rw [hv] at h
      refine ⟨by simp [h], fun _ => by simp [h], ?_⟩
      intro r hr
      rw [h] at hr
      simp at hr
      rw [hr]
      exact ht k

/-- C8: every invocation of every operation issues at most one HTTP GET
request — exactly one when an API key is configured — and every issued
request carries the fixed 30-second timeout; no error outcome ever
triggers a second request. -/
theorem single_get_fixed_timeout :
    (∀ (cfg : Config) (a : SearchBillsArgs) u,
      (search_bills cfg a u).requests.length ≤ 1 ∧
      (strTruthy cfg.openstates_api_key = true →
        (search_bills cfg a u).requests.length = 1) ∧
      ∀ r ∈ (search_bills cfg a u).requests, r.timeout = 30) ∧
    (∀ (cfg : Config) x incl u,
      (get_bill_by_id cfg x incl u).requests.length ≤ 1 ∧
      (strTruthy cfg.openstates_api_key = true →
        (get_bill_by_id cfg x incl u).requests.length = 1) ∧
      ∀ r ∈ (get_bill_by_id cfg x incl u).requests, r.timeout = 30) ∧
    (∀ (cfg : Config) x y z incl u,
      (get_bill_details cfg x y z incl u).requests.length ≤ 1 ∧
      (strTruthy cfg.openstates_api_key = true →
        (get_bill_details cfg x y z incl u).requests.length = 1) ∧
      ∀ r ∈ (get_bill_details cfg x y z incl u).requests, r.timeout = 30) ∧
    (∀ (cfg : Config) (a : SearchPeopleArgs) u,
      (search_people cfg a u).requests.length ≤ 1 ∧
      (strTruthy cfg.openstates_api_key = true →
        (search_people cfg a u).requests.length = 1) ∧
      ∀ r ∈ (search_people cfg a u).requests, r.timeout = 30) ∧
    (∀ (cfg : Config) (lat lng : ℚ) u,
      (get_legislators_by_location cfg lat lng u).requests.length ≤ 1 ∧
      (strTruthy cfg.openstates_api_key = true →
        (get_legislators_by_location cfg lat lng u).requests.length = 1) ∧
      ∀ r ∈ (get_legislators_by_location cfg lat lng u).requests, r.timeout = 30) ∧
    (∀ (cfg : Config) (a : SearchCommitteesArgs) u,
      (search_committees cfg a u).requests.length ≤ 1 ∧
      (strTruthy cfg.openstates_api_key = true →
        (search_committees cfg a u).requests.length = 1) ∧
      ∀ r ∈ (search_committees cfg a u).requests, r.timeout = 30) ∧
    (∀ (cfg : Config) x incl u,
      (get_committee_details cfg x incl u).requests.length ≤ 1 ∧
      (strTruthy cfg.openstates_api_key = true →
        (get_committee_details cfg x incl u).requests.length = 1) ∧
      ∀ r ∈ (get_committee_details cfg x incl u).requests, r.timeout = 30) ∧
    (∀ (cfg : Config) (a : SearchEventsArgs) u,
      (search_events cfg a u).requests.length ≤ 1 ∧
      (strTruthy cfg.openstates_api_key = true →
        (search_events cfg a u).requests.length = 1) ∧
      ∀ r ∈ (search_events cfg a u).requests, r.timeout = 30) ∧
    (∀ (cfg : Config) x incl u,
      (get_event_details cfg x incl u).requests.length ≤ 1 ∧
      (strTruthy cfg.openstates_api_key = true →
        (get_event_details cfg x incl u).requests.length = 1) ∧
      ∀ r ∈ (get_event_details cfg x incl u).requests, r.timeout = 30) ∧
    (∀ (cfg : Config) (a : GetJurisdictionsArgs) u,
      (get_jurisdictions cfg a u).requests.length ≤ 1 ∧
      (strTruthy cfg.openstates_api_key = true →
        (get_jurisdictions cfg a u).requests.length = 1) ∧
      ∀ r ∈ (get_jurisdictions cfg a u).requests, r.timeout = 30) ∧
    (∀ (cfg : Config) x incl u,
      (get_jurisdiction_details cfg x incl u).requests.length ≤ 1 ∧
      (strTruthy cfg.openstates_api_key = true →
        (get_jurisdiction_details cfg x incl u).requests.length = 1) ∧
      ∀ r ∈ (get_jurisdiction_details cfg x incl u).requests, r.timeout = 30) :=
  ⟨fun cfg a u =>
    requests_spec_of_match _ (search_bills_requests cfg a u) (fun _ => rfl),
  fun cfg x incl u =>
    requests_spec_of_match _ (get_bill_by_id_requests cfg x incl u) (fun _ => rfl),
  fun cfg x y z incl u =>
    requests_spec_of_match _ (get_bill_details_requests cfg x y z incl u) (fun _ => rfl),
  fun cfg a u =>
    requests_spec_of_match _ (search_people_requests cfg a u) (fun _ => rfl),
  fun cfg lat lng u =>
    requests_spec_of_match _ (get_legislators_by_location_requests cfg lat lng u)
      (fun _ => rfl),
  fun cfg a u =>
    requests_spec_of_match _ (search_committees_requests cfg a u) (fun _ => rfl),
  fun cfg x incl u =>
    requests_spec_of_match _ (get_committee_details_requests cfg x incl u) (fun _ => rfl),
  fun cfg a u =>
    requests_spec_of_match _ (search_events_requests cfg a u) (fun _ => rfl),
  fun cfg x incl u =>
    requests_spec_of_match _ (get_event_details_requests cfg x incl u) (fun _ => rfl),
  fun cfg a u =>
    requests_spec_of_match _ (get_jurisdictions_requests cfg a u) (fun _ => rfl),
  fun cfg x incl u =>
    requests_spec_of_match _ (get_jurisdiction_details_requests cfg x incl u)
      (fun _ => rfl)⟩

/-- Witness for C8: with an API key configured, a concrete bills search
issues exactly one request, and with no key a concrete events search
issues none. -/
theorem single_get_fixed_timeout_witness :
    (search_bills { openstates_api_key := some "k" } {}
        (HttpOutcome.statusError 404 "not found")).requests.length = 1 ∧
    (search_events {} {} (HttpOutcome.statusError 404 "not found")).requests.length ≤ 1 :=
  ⟨(single_get_fixed_timeout.1 { openstates_api_key := some "k" } {}
      (HttpOutcome.statusError 404 "not found")).2.1 rfl,
    (single_get_fixed_timeout.2.2.2.2.2.2.2.1 {} {}
      (HttpOutcome.statusError 404 "not found")).1⟩

/-- Two configurations that agree on every field except possibly
`openstates_base_url`, `openstates_timeout`, `openstates_connect_timeout`
and `openstates_read_timeout`. -/
def Config.sameExceptUrlAndTimeouts (c1 c2 : Config) : Prop :=
  c1.host = c2.host ∧ c1.mcp_port = c2.mcp_port ∧
  c1.openstates_log_level = c2.openstates_log_level ∧
  c1.openstates_debug = c2.openstates_debug ∧
  c1.environment = c2.environment ∧
  c1.openstates_api_key = c2.openstates_api_key ∧
  c1.openstates_rate_limit = c2.openstates_rate_limit ∧
  c1.openstates_cache_ttl = c2.openstates_cache_ttl ∧
  c1.openstates_max_retries = c2.openstates_max_retries ∧
  c1.openstates_retry_delay = c2.openstates_retry_delay

theorem url_timeout_of_match {key : Option String} {reqs : List Request}
    (f : String → Request)
    (h : reqs = match _validate_api_key key with
      | Except.error _ => []
      | Except.ok k => [f k])
    (hurl : ∀ k, ∃ rest, (f k).url = "https://v3.openstates.org" ++ rest)
    (ht : ∀ k, (f k).timeout = 30) :
    ∀ r ∈ reqs,
      (∃ rest, r.url = "https://v3.openstates.org" ++ rest) ∧ r.timeout = 30 := by
  cases hv : _validate_api_key key with
  | error e => rw [hv] at h; simp [h]
  | ok k =>
      rw [hv] at h
      intro r hr
      rw [h] at hr
      simp at hr
      rw [hr]
      exact ⟨hurl k, ht k⟩

/-- C10: no tool handler reads the configured base URL or any of the
timeout fields — two configurations agreeing on everything else (API
key included) produce identical runs of every operation and an
identical status snapshot, and every issued request targets the
hardcoded host with the literal 30-second timeout. -/
theorem base_url_and_timeouts_unread (c1 c2 : Config)
    (h : Config.sameExceptUrlAndTimeouts c1 c2) :
    (∀ a u, search_bills c1 a u = search_bills c2 a u) ∧
    (∀ x incl u, get_bill_by_id c1 x incl u = get_bill_by_id c2 x incl u) ∧
    (∀ x y z incl u,
      get_bill_details c1 x y z incl u = get_bill_details c2 x y z incl u) ∧
    (∀ a u, search_people c1 a u = search_people c2 a u) ∧
    (∀ lat lng u, get_legislators_by_location c1 lat lng u
      = get_legislators_by_location c2 lat lng u) ∧
    (∀ a u, search_committees c1 a u = search_committees c2 a u) ∧
    (∀ x incl u,
      get_committee_details c1 x incl u = get_committee_details c2 x incl u) ∧
    (∀ a u, search_events c1 a u = search_events c2 a u) ∧
    (∀ x incl u, get_event_details c1 x incl u = get_event_details c2 x incl u) ∧
    (∀ a u, get_jurisdictions c1 a u = get_jurisdictions c2 a u) ∧
    (∀ x incl u,
      get_jurisdiction_details c1 x incl u = get_jurisdiction_details c2 x incl u) ∧
    (∀ sys, status c1 sys = status c2 sys) ∧
    (∀ a u, ∀ r ∈ (search_bills c1 a u).requests,
      (∃ rest, r.url = "https://v3.openstates.org" ++ rest) ∧ r.timeout = 30) ∧
    (∀ x incl u, ∀ r ∈ (get_bill_by_id c1 x incl u).requests,
      (∃ rest, r.url = "https://v3.openstates.org" ++ rest) ∧ r.timeout = 30) ∧
    (∀ x y z incl u, ∀ r ∈ (get_bill_details c1 x y z incl u).requests,
      (∃ rest, r.url = "https://v3.openstates.org" ++ rest) ∧ r.timeout = 30) ∧
    (∀ a u, ∀ r ∈ (search_people c1 a u).requests,
      (∃ rest, r.url = "https://v3.openstates.org" ++ rest) ∧ r.timeout = 30) ∧
    (∀ lat lng u, ∀ r ∈ (get_legislators_by_location c1 lat lng u).requests,
      (∃ rest, r.url = "https://v3.openstates.org" ++ rest) ∧ r.timeout = 30) ∧
    (∀ a u, ∀ r ∈ (search_committees c1 a u).requests,
      (∃ rest, r.url = "https://v3.openstates.org" ++ rest) ∧ r.timeout = 30) ∧
    (∀ x incl u, ∀ r ∈ (get_committee_details c1 x incl u).requests,
      (∃ rest, r.url = "https://v3.openstates.org" ++ rest) ∧ r.timeout = 30) ∧
    (∀ a u, ∀ r ∈ (search_events c1 a u).requests,
      (∃ rest, r.url = "https://v3.openstates.org" ++ rest) ∧ r.timeout = 30) ∧
    (∀ x incl u, ∀ r ∈ (get_event_details c1 x incl u).requests,
      (∃ rest, r.url = "https://v3.openstates.org" ++ rest) ∧ r.timeout = 30) ∧
    (∀ a u, ∀ r ∈ (get_jurisdictions c1 a u).requests,
      (∃ rest, r.url = "https://v3.openstates.org" ++ rest) ∧ r.timeout = 30) ∧
    (∀ x incl u, ∀ r ∈ (get_jurisdiction_details c1 x incl u).requests,
      (∃ rest, r.url = "https://v3.openstates.org" ++ rest) ∧ r.timeout = 30) := by
  obtain ⟨hhost, hport, -, -, -, hkey, -, -, -, -⟩ := h
  refine ⟨fun a u => ?_, fun x incl u => ?_, fun x y z incl u => ?_,
    fun a u => ?_, fun lat lng u => ?_, fun a u => ?_, fun x incl u => ?_,
    fun a u => ?_, fun x incl u => ?_, fun a u => ?_, fun x incl u => ?_,
    fun sys => ?_,
    fun a u => url_timeout_of_match _ (search_bills_requests c1 a u)
      (fun k => ⟨"/bills", rfl⟩) (fun k => rfl),
    fun x incl u => url_timeout_of_match _ (get_bill_by_id_requests c1 x incl u)
      (fun k => ⟨"/bills/ocd-bill/" ++ x, by simp [← String.append_assoc]⟩)
      (fun k => rfl),
    fun x y z incl u =>
      url_timeout_of_match _ (get_bill_details_requests c1 x y z incl u)
        (fun k => ⟨"/bills/" ++ x ++ "/" ++ y ++ "/" ++ z,
          by simp [← String.append_assoc]⟩)
        (fun k => rfl),
    fun a u => url_timeout_of_match _ (search_people_requests c1 a u)
      (fun k => ⟨"/people", rfl⟩) (fun k => rfl),
    fun lat lng u =>
      url_timeout_of_match _ (get_legislators_by_location_requests c1 lat lng u)
        (fun k => ⟨"/people.geo", rfl⟩) (fun k => rfl),
    fun a u => url_timeout_of_match _ (search_committees_requests c1 a u)
      (fun k => ⟨"/committees", rfl⟩) (fun k => rfl),
    fun x incl u => url_timeout_of_match _ (get_committee_details_requests c1 x incl u)
      (fun k => ⟨"/committees/" ++ x, by simp [← String.append_assoc]⟩)
      (fun k => rfl),
    fun a u => url_timeout_of_match _ (search_events_requests c1 a u)
      (fun k => ⟨"/events", rfl⟩) (fun k => rfl),
    fun x incl u => url_timeout_of_match _ (get_event_details_requests c1 x incl u)
      (fun k => ⟨"/events/" ++ x, by simp [← String.append_assoc]⟩)
      (fun k => rfl),
    fun a u => url_timeout_of_match _ (get_jurisdictions_requests c1 a u)
      (fun k => ⟨"/jurisdictions", rfl⟩) (fun k => rfl),
    fun x incl u =>
      url_timeout_of_match _ (get_jurisdiction_details_requests c1 x incl u)
        (fun k => ⟨"/jurisdictions/" ++ x, by simp [← String.append_assoc]⟩)
        (fun k => rfl)⟩
  · simp only [search_bills]; rw [hkey]
  · simp only [get_bill_by_id]; rw [hkey]
  · simp only [get_bill_details]; rw [hkey]
  · simp only [search_people]; rw [hkey]
  · simp only [get_legislators_by_location]; rw [hkey]
  · simp only [search_committees]; rw [hkey]
  · simp only [get_committee_details]; rw [hkey]
  · simp only [search_events]; rw [hkey]
  · simp only [get_event_details]; rw [hkey]
  · simp only [get_jurisdictions]; rw [hkey]
  · simp only [get_jurisdiction_details]; rw [hkey]
  · simp only [status]; rw [hkey, hhost, hport]

/-- Witness for C10: two concrete configurations differing in all four
URL/timeout fields give the same concrete bills-search run. -/
theorem base_url_and_timeouts_unread_witness :
    search_bills { openstates_api_key := some "k" } {}
        (HttpOutcome.success (Json.obj [("results", Json.arr [])]))
      = search_bills
          { openstates_api_key := some "k",
            openstates_base_url := "http://localhost:9",
            openstates_timeout := 5, openstates_connect_timeout := 1,
            openstates_read_timeout := 2 } {}
          (HttpOutcome.success (Json.obj [("results", Json.arr [])])) :=
  (base_url_and_timeouts_unread { openstates_api_key := some "k" }
    { openstates_api_key := some "k",
      openstates_base_url := "http://localhost:9",
      openstates_timeout := 5, openstates_connect_timeout := 1,
      openstates_read_timeout := 2 }
    ⟨rfl, rfl, rfl, rfl, rfl, rfl, rfl, rfl, rfl, rfl⟩).1 {}
    (HttpOutcome.success (Json.obj [("results", Json.arr [])]))

theorem searchSuccess_ok (log0 : List LogEntry) (req : Request)
    (foundMsg : Nat → String) (body r : Json) (n : Nat)
    (h1 : pyDictGetD body "results" (Json.arr []) = some r)
    (h2 : pyLen r = some n) :
    searchSuccess log0 req foundMsg body
      = { log := log0 ++ [⟨LogLevel.info, foundMsg n⟩],
          requests := [req], outcome := Except.ok body } := by
  unfold searchSuccess
  simp only [h1, h2]

theorem searchSuccess_attrError (log0 : List LogEntry) (req : Request)
    (foundMsg : Nat → String) (body : Json)
    (h1 : pyDictGetD body "results" (Json.arr []) = none) :
    searchSuccess log0 req foundMsg body
      = { log := log0 ++ [⟨LogLevel.error,
            handleApiErrorMsg (PyError.attributeError
              "'NoneType' object has no attribute 'get'")⟩],
          requests := [req],
          outcome := Except.error (PyError.attributeError
            "'NoneType' object has no attribute 'get'") } := by
  unfold searchSuccess
  simp only [h1]

theorem searchSuccess_typeError (log0 : List LogEntry) (req : Request)
    (foundMsg : Nat → String) (body r : Json)
    (h1 : pyDictGetD body "results" (Json.arr []) = some r)
    (h2 : pyLen r = none) :
    searchSuccess log0 req foundMsg body
      = { log := log0 ++ [⟨LogLevel.error,
            handleApiErrorMsg (PyError.typeError "object has no len()")⟩],
          requests := [req],
          outcome := Except.error (PyError.typeError "object has no len()") } := by
  unfold searchSuccess
  simp only [h1, h2]

/-- C6 counterexample: a 2xx response whose body is the JSON object
with `results` bound to the number 5 makes `search_bills` raise a
`TypeError` from `len(data.get("results", []))` — the decoded body is
not returned. -/
theorem json_passthrough_counterexample :
    (search_bills { openstates_api_key := some "k" } {}
        (HttpOutcome.success (Json.obj [("results", Json.num 5)]))).outcome
      = Except.error (PyError.typeError "object has no len()") ∧
    (search_bills { openstates_api_key := some "k" } {}
        (HttpOutcome.success (Json.obj [("results", Json.num 5)]))).outcome
      ≠ Except.ok (Json.obj [("results", Json.num 5)]) := by
  have h1 : (search_bills { openstates_api_key := some "k" } {}
      (HttpOutcome.success (Json.obj [("results", Json.num 5)]))).outcome
      = Except.error (PyError.typeError "object has no len()") := rfl
  refine ⟨h1, ?_⟩
  rw [h1]
  simp

/-- C6 amended: with an API key configured, a 2xx response makes every
get-by-id operation return the decoded JSON body unchanged; each search
operation first computes `len(data.get("results", []))` for its
"Found n ..." log line, so it returns the body unchanged (and logs the
length) exactly when the body is a JSON object (or exposes `results`)
whose `results` value has a length, and otherwise raises the resulting
`AttributeError`/`TypeError` as a logged API error instead of
returning. -/
theorem json_passthrough_on_success :
    (∀ (cfg : Config) (a : SearchBillsArgs) (body r : Json) (n : Nat),
      strTruthy cfg.openstates_api_key = true →
      pyDictGetD body "results" (Json.arr []) = some r → pyLen r = some n →
      (search_bills cfg a (HttpOutcome.success body)).outcome = Except.ok body ∧
      LogEntry.mk LogLevel.info s!"Found {n} bills"
        ∈ (search_bills cfg a (HttpOutcome.success body)).log) ∧
    (∀ (cfg : Config) (a : SearchBillsArgs) (body : Json),
      strTruthy cfg.openstates_api_key = true →
      pyDictGetD body "results" (Json.arr []) = none →
      (search_bills cfg a (HttpOutcome.success body)).outcome
        = Except.error (PyError.attributeError
            "'NoneType' object has no attribute 'get'")) ∧
    (∀ (cfg : Config) (a : SearchBillsArgs) (body r : Json),
      strTruthy cfg.openstates_api_key = true →
      pyDictGetD body "results" (Json.arr []) = some r → pyLen r = none →
      (search_bills cfg a (HttpOutcome.success body)).outcome
        = Except.error (PyError.typeError "object has no len()")) ∧
    (∀ (cfg : Config) x incl (body : Json),
      strTruthy cfg.openstates_api_key = true →
      (get_bill_by_id cfg x incl (HttpOutcome.success body)).outcome
        = Except.ok body) ∧
    (∀ (cfg : Config) x y z incl (body : Json),
      strTruthy cfg.openstates_api_key = true →
      (get_bill_details cfg x y z incl (HttpOutcome.success body)).outcome
        = Except.ok body) ∧
    (∀ (cfg : Config) (a : SearchPeopleArgs) (body r : Json) (n : Nat),
      strTruthy cfg.openstates_api_key = true →
      pyDictGetD body "results" (Json.arr []) = some r → pyLen r = some n →
      (search_people cfg a (HttpOutcome.success body)).outcome = Except.ok body ∧
      LogEntry.mk LogLevel.info s!"Found {n} people"
        ∈ (search_people cfg a (HttpOutcome.success body)).log) ∧
    (∀ (cfg : Config) (a : SearchPeopleArgs) (body : Json),
      strTruthy cfg.openstates_api_key = true →
      pyDictGetD body "results" (Json.arr []) = none →
      (search_people cfg a (HttpOutcome.success body)).outcome
        = Except.error (PyError.attributeError
            "'NoneType' object has no attribute 'get'")) ∧
    (∀ (cfg : Config) (a : SearchPeopleArgs) (body r : Json),
      strTruthy cfg.openstates_api_key = true →
      pyDictGetD body "results" (Json.arr []) = some r → pyLen r = none →
      (search_people cfg a (HttpOutcome.success body)).outcome
        = Except.error (PyError.typeError "object has no len()")) ∧
    (∀ (cfg : Config) (lat lng : ℚ) (body : Json),
      strTruthy cfg.openstates_api_key = true →
      (get_legislators_by_location cfg lat lng (HttpOutcome.success body)).outcome
        = Except.ok body) ∧
    (∀ (cfg : Config) (a : SearchCommitteesArgs) (body r : Json) (n : Nat),
      strTruthy cfg.openstates_api_key = true →
      pyDictGetD body "results" (Json.arr []) = some r → pyLen r = some n →
      (search_committees cfg a (HttpOutcome.success body)).outcome = Except.ok body ∧
      LogEntry.mk LogLevel.info s!"Found {n} committees"
        ∈ (search_committees cfg a (HttpOutcome.success body)).log) ∧
    (∀ (cfg : Config) (a : SearchCommitteesArgs) (body : Json),
      strTruthy cfg.openstates_api_key = true →
      pyDictGetD body "results" (Json.arr []) = none →
      (search_committees cfg a (HttpOutcome.success body)).outcome
        = Except.error (PyError.attributeError
            "'NoneType' object has no attribute 'get'")) ∧
    (∀ (cfg : Config) (a : SearchCommitteesArgs) (body r : Json),
      strTruthy cfg.openstates_api_key = true →
      pyDictGetD body "results" (Json.arr []) = some r → pyLen r = none →
      (search_committees cfg a (HttpOutcome.success body)).outcome
        = Except.error (PyError.typeError "object has no len()")) ∧
    (∀ (cfg : Config) x incl (body : Json),
      strTruthy cfg.openstates_api_key = true →
      (get_committee_details cfg x incl (HttpOutcome.success body)).outcome
        = Except.ok body) ∧
    (∀ (cfg : Config) (a : SearchEventsArgs) (body r : Json) (n : Nat),
      strTruthy cfg.openstates_api_key = true →
      pyDictGetD body "results" (Json.arr []) = some r → pyLen r = some n →
      (search_events cfg a (HttpOutcome.success body)).outcome = Except.ok body ∧
      LogEntry.mk LogLevel.info s!"Found {n} events"
        ∈ (search_events cfg a (HttpOutcome.success body)).log) ∧
    (∀ (cfg : Config) (a : SearchEventsArgs) (body : Json),
      strTruthy cfg.openstates_api_key = true →
      pyDictGetD body "results" (Json.arr []) = none →
      (search_events cfg a (HttpOutcome.success body)).outcome
        = Except.error (PyError.attributeError
            "'NoneType' object has no attribute 'get'")) ∧
    (∀ (cfg : Config) (a : SearchEventsArgs) (body r : Json),
      strTruthy cfg.openstates_api_key = true →
      pyDictGetD body "results" (Json.arr []) = some r → pyLen r = none →
      (search_events cfg a (HttpOutcome.success body)).outcome
        = Except.error (PyError.typeError "object has no len()")) ∧
    (∀ (cfg : Config) x incl (body : Json),
      strTruthy cfg.openstates_api_key = true →
      (get_event_details cfg x incl (HttpOutcome.success body)).outcome
        = Except.ok body) ∧
    (∀ (cfg : Config) (a : GetJurisdictionsArgs) (body r : Json) (n : Nat),
      strTruthy cfg.openstates_api_key = true →
      pyDictGetD body "results" (Json.arr []) = some r → pyLen r = some n →
      (get_jurisdictions cfg a (HttpOutcome.success body)).outcome = Except.ok body ∧
      LogEntry.mk LogLevel.info s!"Found {n} jurisdictions"
        ∈ (get_jurisdictions cfg a (HttpOutcome.success body)).log) ∧
    (∀ (cfg : Config) (a : GetJurisdictionsArgs) (body : Json),
      strTruthy cfg.openstates_api_key = true →
      pyDictGetD body "results" (Json.arr []) = none →
      (get_jurisdictions cfg a (HttpOutcome.success body)).outcome
        = Except.error (PyError.attributeError
            "'NoneType' object has no attribute 'get'")) ∧
    (∀ (cfg : Config) (a : GetJurisdictionsArgs) (body r : Json),
      strTruthy cfg.openstates_api_key = true →
      pyDictGetD body "results" (Json.arr []) = some r → pyLen r = none →
      (get_jurisdictions cfg a (HttpOutcome.success body)).outcome
        = Except.error (PyError.typeError "object has no len()")) ∧
    (∀ (cfg : Config) x incl (body : Json),
      strTruthy cfg.openstates_api_key = true →
      (get_jurisdiction_details cfg x incl (HttpOutcome.success body)).outcome
        = Except.ok body) := by
  refine ⟨fun cfg a body r n hk h1 h2 => ?_, fun cfg a body hk h1 => ?_,
    fun cfg a body r hk h1 h2 => ?_, fun cfg x incl body hk => ?_,
    fun cfg x y z incl body hk => ?_,
    fun cfg a body r n hk h1 h2 => ?_, fun cfg a body hk h1 => ?_,
    fun cfg a body r hk h1 h2 => ?_, fun cfg lat lng body hk => ?_,
    fun cfg a body r n hk h1 h2 => ?_, fun cfg a body hk h1 => ?_,
    fun cfg a body r hk h1 h2 => ?_, fun cfg x incl body hk => ?_,
    fun cfg a body r n hk h1 h2 => ?_, fun cfg a body hk h1 => ?_,
    fun cfg a body r hk h1 h2 => ?_, fun cfg x incl body hk => ?_,
    fun cfg a body r n hk h1 h2 => ?_, fun cfg a body hk h1 => ?_,
    fun cfg a body r hk h1 h2 => ?_, fun cfg x incl body hk => ?_⟩ <;>
  · obtain ⟨s, hs, hne, hok⟩ := validate_ok_of_truthy hk
    simp [search_bills, get_bill_by_id, get_bill_details, search_people,
      get_legislators_by_location, search_committees, get_committee_details,
      search_events, get_event_details, get_jurisdictions,
      get_jurisdiction_details, _validate_api_key, gatewayCall, getSuccess,
      searchSuccess_ok, searchSuccess_attrError, searchSuccess_typeError, *]

/-- Witness for C6 amended, matching the spec scenario: with a key set
and an upstream body holding eight results, `search_bills` returns that
body unchanged and logs "Found 8 bills". -/
theorem json_passthrough_on_success_witness :
    (search_bills { openstates_api_key := some "k" } {}
        (HttpOutcome.success (Json.obj [("results",
          Json.arr [Json.num 1, Json.num 2, Json.num 3, Json.num 4,
            Json.num 5, Json.num 6, Json.num 7, Json.num 8]),
          ("pagination", Json.obj [])]))).outcome
      = Except.ok (Json.obj [("results",
          Json.arr [Json.num 1, Json.num 2, Json.num 3, Json.num 4,
            Json.num 5, Json.num 6, Json.num 7, Json.num 8]),
          ("pagination", Json.obj [])]) ∧
    LogEntry.mk LogLevel.info "Found 8 bills"
      ∈ (search_bills { openstates_api_key := some "k" } {}
        (HttpOutcome.success (Json.obj [("results",
          Json.arr [Json.num 1, Json.num 2, Json.num 3, Json.num 4,
            Json.num 5, Json.num 6, Json.num 7, Json.num 8]),
          ("pagination", Json.obj [])]))).log :=
  json_passthrough_on_success.1 { openstates_api_key := some "k" } {}
    (Json.obj [("results",
      Json.arr [Json.num 1, Json.num 2, Json.num 3, Json.num 4,
        Json.num 5, Json.num 6, Json.num 7, Json.num 8]),
      ("pagination", Json.obj [])])
    (Json.arr [Json.num 1, Json.num 2, Json.num 3, Json.num 4,
      Json.num 5, Json.num 6, Json.num 7, Json.num 8]) 8
    rfl rfl rfl

theorem validate_error_shape {k : Option String} {e : PyError}
    (h : _validate_api_key k = Except.error e) :
    e = PyError.valueError apiKeyErrorMsg := by
  unfold _validate_api_key at h
  cases k with
  | none =>
      injection h with h'
      exact h'.symm
  | some s =>
      by_cases hs : s = "" <;> simp [hs] at h
      exact h.symm

theorem logsOnce_configError (m0 : String) :
    logsOnceAndPropagates
      { log := [⟨LogLevel.info, m0⟩, ⟨LogLevel.error, apiKeyErrorMsg⟩],
        requests := [],
        outcome := Except.error (PyError.valueError apiKeyErrorMsg) } ∧
    noWrap
      { log := [⟨LogLevel.info, m0⟩, ⟨LogLevel.error, apiKeyErrorMsg⟩],
        requests := [],
        outcome := Except.error (PyError.valueError apiKeyErrorMsg) } := by
  constructor
  · simp [logsOnceAndPropagates, errorLogCount, List.countP_cons, List.countP_nil,
      LogEntry.isError, detectionMsg]
  · simp [noWrap]

theorem logsOnce_configErrorWrap (m0 : String) :
    logsOnceAndPropagates
      { log := [⟨LogLevel.info, m0⟩, ⟨LogLevel.error, apiKeyErrorMsg⟩],
        requests := [],
        outcome := Except.error
          (PyError.valueErrorOfError (PyError.valueError apiKeyErrorMsg)) } := by
  simp [logsOnceAndPropagates, errorLogCount, List.countP_cons, List.countP_nil,
    LogEntry.isError, detectionMsg, PyError.str]

theorem logsOnce_gateway_search (m0 : String) (req : Request)
    (fm : Nat → String) (u : HttpOutcome) :
    logsOnceAndPropagates (gatewayCall [⟨LogLevel.info, m0⟩] req u
      (searchSuccess [⟨LogLevel.info, m0⟩] req fm)) ∧
    noWrap (gatewayCall [⟨LogLevel.info, m0⟩] req u
      (searchSuccess [⟨LogLevel.info, m0⟩] req fm)) := by
  cases u with
  | success body =>
      show logsOnceAndPropagates (searchSuccess [⟨LogLevel.info, m0⟩] req fm body) ∧
        noWrap (searchSuccess [⟨LogLevel.info, m0⟩] req fm body)
      rcases hg : pyDictGetD body "results" (Json.arr []) with - | r
      · rw [searchSuccess_attrError _ _ _ _ hg]
        constructor <;>
          simp [logsOnceAndPropagates, noWrap, errorLogCount, List.countP_cons,
            List.countP_nil, LogEntry.isError, detectionMsg, handleApiErrorMsg,
            PyError.isHttpStatusError]
      · rcases hl : pyLen r with - | n
        · rw [searchSuccess_typeError _ _ _ _ _ hg hl]
          constructor <;>
            simp [logsOnceAndPropagates, noWrap, errorLogCount, List.countP_cons,
              List.countP_nil, LogEntry.isError, detectionMsg, handleApiErrorMsg,
              PyError.isHttpStatusError]
        · rw [searchSuccess_ok _ _ _ _ _ _ hg hl]
          constructor <;>
            simp [logsOnceAndPropagates, noWrap, errorLogCount, List.countP_cons,
              List.countP_nil, LogEntry.isError]
  | statusError c m =>
      constructor <;>
        simp [gatewayCall, logsOnceAndPropagates, noWrap, errorLogCount,
          List.countP_cons, List.countP_nil, LogEntry.isError, detectionMsg]
  | requestError m =>
      constructor <;>
        simp [gatewayCall, logsOnceAndPropagates, noWrap, errorLogCount,
          List.countP_cons, List.countP_nil, LogEntry.isError, detectionMsg]

theorem logsOnce_gateway_get (m0 : String) (req : Request)
    (okMsg : String) (u : HttpOutcome) :
    logsOnceAndPropagates (gatewayCall [⟨LogLevel.info, m0⟩] req u
      (getSuccess [⟨LogLevel.info, m0⟩] req okMsg)) ∧
    noWrap (gatewayCall [⟨LogLevel.info, m0⟩] req u
      (getSuccess [⟨LogLevel.info, m0⟩] req okMsg)) := by
  cases u with
  | success body =>
      constructor <;>
        simp [gatewayCall, getSuccess, logsOnceAndPropagates, noWrap,
          errorLogCount, List.countP_cons, List.countP_nil, LogEntry.isError]
  | statusError c m =>
      constructor <;>
        simp [gatewayCall, logsOnceAndPropagates, noWrap, errorLogCount,
          List.countP_cons, List.countP_nil, LogEntry.isError, detectionMsg]
  | requestError m =>
      constructor <;>
        simp [gatewayCall, logsOnceAndPropagates, noWrap, errorLogCount,
          List.countP_cons, List.countP_nil, LogEntry.isError, detectionMsg]

/-- C4 counterexample: with no API key configured, `search_committees`
propagates `ValueError(e)` — a new exception wrapping the `ValueError`
that `_validate_api_key` raised and that was logged — rather than the
same exception object. -/
theorem error_rethrow_counterexample :
    (search_committees {} {} (HttpOutcome.requestError "r")).outcome
      = Except.error (PyError.valueErrorOfError (PyError.valueError apiKeyErrorMsg)) ∧
    _validate_api_key ({} : Config).openstates_api_key
      = Except.error (PyError.valueError apiKeyErrorMsg) ∧
    PyError.valueErrorOfError (PyError.valueError apiKeyErrorMsg)
      ≠ PyError.valueError apiKeyErrorMsg := by
  refine ⟨rfl, rfl, ?_⟩
  decide

/-- C4 amended: every error raised during a call is logged exactly once
at its point of detection, with the detection message, and then
propagated — no error is swallowed and no fallback value substituted;
every operation except `search_committees` re-raises the detected
exception itself (never a wrapping `ValueError(e)`), while
`search_committees` re-signals its configuration error as a new
`ValueError` wrapping the detected one (its non-configuration errors
are still re-raised unchanged). -/
theorem errors_logged_once_and_propagated :
    (∀ (cfg : Config) (a : SearchBillsArgs) u,
      logsOnceAndPropagates (search_bills cfg a u) ∧ noWrap (search_bills cfg a u)) ∧
    (∀ (cfg : Config) x incl u,
      logsOnceAndPropagates (get_bill_by_id cfg x incl u) ∧
      noWrap (get_bill_by_id cfg x incl u)) ∧
    (∀ (cfg : Config) x y z incl u,
      logsOnceAndPropagates (get_bill_details cfg x y z incl u) ∧
      noWrap (get_bill_details cfg x y z incl u)) ∧
    (∀ (cfg : Config) (a : SearchPeopleArgs) u,
      logsOnceAndPropagates (search_people cfg a u) ∧ noWrap (search_people cfg a u)) ∧
    (∀ (cfg : Config) (lat lng : ℚ) u,
      logsOnceAndPropagates (get_legislators_by_location cfg lat lng u) ∧
      noWrap (get_legislators_by_location cfg lat lng u)) ∧
    (∀ (cfg : Config) (a : SearchCommitteesArgs) u,
      logsOnceAndPropagates (search_committees cfg a u) ∧
      (strTruthy cfg.openstates_api_key = false →
        (search_committees cfg a u).outcome
          = Except.error (PyError.valueErrorOfError (PyError.valueError apiKeyErrorMsg))) ∧
      (strTruthy cfg.openstates_api_key = true → noWrap (search_committees cfg a u))) ∧
    (∀ (cfg : Config) x incl u,
      logsOnceAndPropagates (get_committee_details cfg x incl u) ∧
      noWrap (get_committee_details cfg x incl u)) ∧
    (∀ (cfg : Config) (a : SearchEventsArgs) u,
      logsOnceAndPropagates (search_events cfg a u) ∧ noWrap (search_events cfg a u)) ∧
    (∀ (cfg : Config) x incl u,
      logsOnceAndPropagates (get_event_details cfg x incl u) ∧
      noWrap (get_event_details cfg x incl u)) ∧
    (∀ (cfg : Config) (a : GetJurisdictionsArgs) u,
      logsOnceAndPropagates (get_jurisdictions cfg a u) ∧
      noWrap (get_jurisdictions cfg a u)) ∧
    (∀ (cfg : Config) x incl u,
      logsOnceAndPropagates (get_jurisdiction_details cfg x incl u) ∧
      noWrap (get_jurisdiction_details cfg x incl u)) := by
  refine ⟨fun cfg a u => ?_, fun cfg x incl u => ?_, fun cfg x y z incl u => ?_,
    fun cfg a u => ?_, fun cfg lat lng u => ?_, fun cfg a u => ?_,
    fun cfg x incl u => ?_, fun cfg a u => ?_, fun cfg x incl u => ?_,
    fun cfg a u => ?_, fun cfg x incl u => ?_⟩
  · cases hv : _validate_api_key cfg.openstates_api_key with
    | error e =>
        obtain rfl := validate_error_shape hv
        simp only [search_bills, hv]
        exact logsOnce_configError _
    | ok k =>
        simp only [search_bills, hv]
        exact logsOnce_gateway_search _ _ _ u
  · cases hv : _validate_api_key cfg.openstates_api_key with
    | error e =>
        obtain rfl := validate_error_shape hv
        simp only [get_bill_by_id, hv]
        exact logsOnce_configError _
    | ok k =>
        simp only [get_bill_by_id, hv]
        exact logsOnce_gateway_get _ _ _ u
  · cases hv : _validate_api_key cfg.openstates_api_key with
    | error e =>
        obtain rfl := validate_error_shape hv
        simp only [get_bill_details, hv]
        exact logsOnce_configError _
    | ok k =>
        simp only [get_bill_details, hv]
        exact logsOnce_gateway_get _ _ _ u
  · cases hv : _validate_api_key cfg.openstates_api_key with
    | error e =>
        obtain rfl := validate_error_shape hv
        simp only [search_people, hv]
        exact logsOnce_configError _
    | ok k =>
        simp only [search_people, hv]
        exact logsOnce_gateway_search _ _ _ u
  · cases hv : _validate_api_key cfg.openstates_api_key with
    | error e =>
        obtain rfl := validate_error_shape hv
        simp only [get_legislators_by_location, hv]
        exact logsOnce_configError _
    | ok k =>
        simp only [get_legislators_by_location, hv]
        exact logsOnce_gateway_get _ _ _ u
  · refine ⟨?_, ?_, ?_⟩
    · cases hv : _validate_api_key cfg.openstates_api_key with
      | error e =>
          obtain rfl := validate_error_shape hv
          simp only [search_committees, hv]
          exact logsOnce_configErrorWrap _
      | ok k =>
          simp only [search_committees, hv]
          exact (logsOnce_gateway_search _ _ _ u).1
    · intro hf
      have hv := validate_error_of_falsy hf
      simp only [search_committees, hv]
    · intro ht
      obtain ⟨s, hs, hne, hok⟩ := validate_ok_of_truthy ht
      simp only [search_committees, hok]
      exact (logsOnce_gateway_search _ _ _ u).2
  · cases hv : _validate_api_key cfg.openstates_api_key with
    | error e =>
        obtain rfl := validate_error_shape hv
        simp only [get_committee_details, hv]
        exact logsOnce_configError _
    | ok k =>
        simp only [get_committee_details, hv]
        exact logsOnce_gateway_get _ _ _ u
  · cases hv : _validate_api_key cfg.openstates_api_key with
    | error e =>
        obtain rfl := validate_error_shape hv
        simp only [search_events, hv]
        exact logsOnce_configError _
    | ok k =>
        simp only [search_events, hv]
        exact logsOnce_gateway_search _ _ _ u
  · cases hv : _validate_api_key cfg.openstates_api_key with
    | error e =>
        obtain rfl := validate_error_shape hv
        simp only [get_event_details, hv]
        exact logsOnce_configError _
    | ok k =>
        simp only [get_event_details, hv]
        exact logsOnce_gateway_get _ _ _ u
  · cases hv : _validate_api_key cfg.openstates_api_key with
    | error e =>
        obtain rfl := validate_error_shape hv
        simp only [get_jurisdictions, hv]
        exact logsOnce_configError _
    | ok k =>
        simp only [get_jurisdictions, hv]
        exact logsOnce_gateway_search _ _ _ u
  · cases hv : _validate_api_key cfg.openstates_api_key with
    | error e =>
        obtain rfl := validate_error_shape hv
        simp only [get_jurisdiction_details, hv]
        exact logsOnce_configError _
    | ok k =>
        simp only [get_jurisdiction_details, hv]
        exact logsOnce_gateway_get _ _ _ u

/-- Witness for C4 amended: a concrete failing bills search satisfies
the log-once discipline, and a concrete key-less committees search
propagates the wrapped configuration error. -/
theorem errors_logged_once_and_propagated_witness :
    logsOnceAndPropagates (search_bills { openstates_api_key := some "k" } {}
      (HttpOutcome.statusError 404 "not found")) ∧
    (search_committees {} {} (HttpOutcome.requestError "x")).outcome
      = Except.error (PyError.valueErrorOfError (PyError.valueError apiKeyErrorMsg)) :=
  ⟨(errors_logged_once_and_propagated.1 { openstates_api_key := some "k" } {}
      (HttpOutcome.statusError 404 "not found")).1,
    (errors_logged_once_and_propagated.2.2.2.2.2.1 {} {}
      (HttpOutcome.requestError "x")).2.1 rfl⟩
